import Mathlib

/-!
Shallow embedding of the session lifecycle core of the telegram-crawler
service: the Store (session records, `app/utils/session_manager.py` and the
session model in `app/models/session.py`), the Registry of live protocol
clients (`TelegramService.clients` in `app/services/telegram.py`), the
message/event archive (`app/services/mongodb.py`), the API routes
(`app/api/routes.py`) and the startup reconciliation loop (`app/main.py`).

Upstream protocol behaviour (Telethon sign-in, connect, send) is modelled by
explicit oracle parameters: each operation that consults the upstream takes
the upstream's answer as an argument, and the embedding mirrors the source's
control flow on that answer.  Python exceptions are modelled with `Except`:
a service function returns its result-or-exception together with the state
at the moment it returned or raised (mutations before a raise persist, as in
Python).  Timestamps are a `Nat` clock carried in the state.
-/

namespace TgCrawler

/-- A Telethon user as consumed by the routes: `user.id` and `user.phone`. -/
structure TUser where
  id : Int
  phone : Option String
deriving Repr, DecidableEq

/-- One Store record, mirroring the `TelegramSession` model
(`app/models/session.py`): `session_id`, `agent_id`, `phone`, `user_id`,
`is_active`, `connected_at`, `last_activity`, `session_file`, plus the
resumable `session_string` column that the MongoDB-backed store carries
(read by `reconnect_client` via `session_record.get("session_string")`). -/
structure SessionRecord where
  session_id : String
  agent_id : Int
  phone : Option String := none
  user_id : Option Int := none
  is_active : Bool := false
  connected_at : Option Nat := none
  last_activity : Option Nat := none
  session_file : String := ""
  session_string : Option String := none
deriving Repr, DecidableEq

/-- A live protocol client handle as the service observes it:
`is_connected()`, `is_user_authorized()`, the ad hoc `_phone_code_hash`
attribute, the current `client.session.save()` value, and whether a
`NewMessage` handler has been attached (`setup_message_handler`). -/
structure Client where
  connected : Bool := false
  authorized : Bool := false
  phone_code_hash : Option String := none
  session_token : String := ""
  handler : Bool := false
deriving Repr, DecidableEq

/-- One archived message document (`mongodb_service.save_message`),
restricted to the fields the claims talk about. -/
structure MessageDoc where
  session_id : String
  agent_id : Int
  message_id : Int
  chat_id : Int
  text : String
  date : Nat
  reply_to_message_id : Option Int := none
  is_outgoing : Bool
deriving Repr, DecidableEq

/-- One archived event document (`mongodb_service.save_event`). -/
structure EventDoc where
  session_id : String
  agent_id : Int
  event_type : String
deriving Repr, DecidableEq

/-- The whole observable state: the Store (`telegram_sessions` records), the
Registry (`TelegramService.clients`), the message and event archives, and a
clock standing for `datetime.utcnow()`. -/
structure ServiceState where
  store : List SessionRecord
  clients : List (String × Client)
  messages : List MessageDoc := []
  events : List EventDoc := []
  now : Nat := 0
deriving Repr, DecidableEq

/-- Python exceptions that cross the service/route boundary:
`ValueError(msg)` versus any other exception. -/
inductive PyError where
  | valueError (msg : String)
  | generic (msg : String)
deriving Repr, DecidableEq

/-- Result of an HTTP route: a payload or an `HTTPException(status, detail)`. -/
inductive ApiResult (α : Type) where
  | ok (a : α)
  | httpError (status : Nat) (detail : String)
deriving Repr, DecidableEq

/-! ### Registry primitives (Python dict `TelegramService.clients`) -/

/-- `self.clients.get(session_id)`. -/
def clients_get (l : List (String × Client)) (k : String) : Option Client :=
  (l.find? (fun p => p.1 == k)).map (·.2)

/-- `self.clients[session_id] = client` (replace-or-add dict write). -/
def clients_set : List (String × Client) → String → Client → List (String × Client)
  | [], k, v => [(k, v)]
  | p :: rest, k, v =>
      if p.1 == k then (k, v) :: rest else p :: clients_set rest k v

/-- `del self.clients[session_id]`. -/
def clients_remove (l : List (String × Client)) (k : String) :
    List (String × Client) :=
  l.filter (fun p => !(p.1 == k))

/-! ### Store operations (`app/utils/session_manager.py`) -/

namespace SessionManager

/-- `get_session_by_id`: first record whose `session_id` matches. -/
def get_session_by_id (s : ServiceState) (sid : String) : Option SessionRecord :=
  s.store.find? (fun r => r.session_id == sid)

/-- Shared shape of the `update_session_*` methods: look the record up by
`session_id` and commit the field updates; a miss is a silent no-op. -/
def update_record (s : ServiceState) (sid : String)
    (f : SessionRecord → SessionRecord) : ServiceState :=
  { s with store := s.store.map (fun r => if r.session_id == sid then f r else r) }

/-- `create_session`: inserts a fresh record with `is_active=False` and no
credentials. -/
def create_session (s : ServiceState) (agent_id : Int) (sid : String)
    (session_file : String) : ServiceState :=
  { s with store := s.store ++
      [{ session_id := sid, agent_id := agent_id, is_active := false,
         session_file := session_file }] }

/-- `get_all_active_sessions`: records with `is_active == True`. -/
def get_all_active_sessions (s : ServiceState) : List SessionRecord :=
  s.store.filter (fun r => r.is_active)

/-- `update_session_connected`: sets phone, user id, active flag and both
timestamps after a successful authentication. -/
def update_session_connected (s : ServiceState) (sid : String)
    (phone : Option String) (user_id : Int) (is_active : Bool) : ServiceState :=
  update_record s sid (fun r =>
    { r with phone := phone, user_id := some user_id, is_active := is_active,
             connected_at := some s.now, last_activity := some s.now })

/-- `update_session_phone`. -/
def update_session_phone (s : ServiceState) (sid : String) (phone : String) :
    ServiceState :=
  update_record s sid (fun r => { r with phone := some phone })

/-- `update_session_activity`: refresh `last_activity` only. -/
def update_session_activity (s : ServiceState) (sid : String) : ServiceState :=
  update_record s sid (fun r => { r with last_activity := some s.now })

/-- `delete_session`: removes the record, reporting whether one existed. -/
def delete_session (s : ServiceState) (sid : String) : Bool × ServiceState :=
  ((s.store.find? (fun r => r.session_id == sid)).isSome,
   { s with store := s.store.filter (fun r => !(r.session_id == sid)) })

/-- `deactivate_session`: flips `is_active` to false, record retained. -/
def deactivate_session (s : ServiceState) (sid : String) : ServiceState :=
  update_record s sid (fun r => { r with is_active := false })

/-- Modelled from the spec: `update_session_string`, the resumable-token
write of the MongoDB-backed session manager.  The method is called from
`TelegramService` (`await session_manager.update_session_string(...)`) but
its definition is not among the sources (only the superseded SQLAlchemy
manager is); per the spec it persists the opaque resumable session token
for the record: "captures ... the client's current resumable token,
persists the token". -/
def update_session_string (s : ServiceState) (sid : String) (tok : String) :
    ServiceState :=
  update_record s sid (fun r => { r with session_string := some tok })

end SessionManager

/-! ### Archive operations (`app/services/mongodb.py`)

`save_message` / `save_event` insert a document; on an insertion failure
they log and re-raise.  The failure possibility is an oracle flag. -/

namespace MongoDB

/-- `mongodb_service.save_message`: append the document or raise. -/
def save_message (s : ServiceState) (doc : MessageDoc) (fail : Bool) :
    Except PyError Unit × ServiceState :=
  if fail then (.error (.generic "Error saving message to MongoDB"), s)
  else (.ok (), { s with messages := s.messages ++ [doc] })

/-- `mongodb_service.save_event`: append the event record or raise. -/
def save_event (s : ServiceState) (session_id : String) (agent_id : Int)
    (event_type : String) (fail : Bool) : Except PyError Unit × ServiceState :=
  if fail then (.error (.generic "Error saving event to MongoDB"), s)
  else (.ok (),
    { s with events := s.events ++
        [{ session_id := session_id, agent_id := agent_id,
           event_type := event_type }] })

end MongoDB

/-! ### Upstream oracles -/

/-- Upstream answer to `client.sign_in(phone, code, phone_code_hash=...)`:
success with an identity and the client's post-sign-in `session.save()`
value, `SessionPasswordNeededError`, or `PhoneCodeInvalidError`. -/
inductive SignInCodeResult where
  | success (user : TUser) (new_token : String)
  | needs_password
  | invalid_code
deriving Repr, DecidableEq

/-- Upstream answer to `client.sign_in(password=...)`: success with identity
and post-sign-in token, or `PasswordHashInvalidError`. -/
inductive SignInPwdResult where
  | success (user : TUser) (new_token : String)
  | invalid_password
deriving Repr, DecidableEq

/-- Upstream answer to `client.send_message`: the sent message's id and
date, or a `FloodWaitError` carrying the cooldown. -/
inductive SendOutcome where
  | sent (message_id : Int) (date : Nat)
  | flood_wait (seconds : Nat)
deriving Repr, DecidableEq

/-! ### Protocol-client service (`app/services/telegram.py`) -/

namespace TelegramService

/-- `create_client`: builds a client (optionally seeded with a resumable
token) and registers it in `self.clients` before any connect happens.
`authorized` records what `is_user_authorized()` will answer for this
seeded session — `auth` is the upstream's verdict on the token. -/
def create_client (s : ServiceState) (sid : String) (token : String)
    (auth : Bool) : ServiceState :=
  let c : Client :=
    { connected := false, authorized := auth, phone_code_hash := none,
      session_token := token, handler := false }
  { s with clients := clients_set s.clients sid c }

/-- `connect_client`: create a fresh client if none is registered, then
connect it if it is not connected.  A fresh client is unauthorized. -/
def connect_client (s : ServiceState) (sid : String) : Client × ServiceState :=
  let s1 := if (clients_get s.clients sid).isSome then s
            else create_client s sid "" false
  match clients_get s1.clients sid with
  | some c =>
      if c.connected then (c, s1)
      else
        let c' := { c with connected := true }
        (c', { s1 with clients := clients_set s1.clients sid c' })
  | none => (default_client, s1)
where
  default_client : Client := {}

/-- `send_code_request`: connect, ask the upstream for a code for `phone`,
stash the returned `phone_code_hash` on the client. -/
def send_code_request (s : ServiceState) (sid phone hash : String) :
    String × ServiceState :=
  let (c, s1) := connect_client s sid
  let c' := { c with phone_code_hash := some hash }
  (hash, { s1 with clients := clients_set s1.clients sid c' })

/-- `request_qr_login`: connect, start a QR login, persist the client's
current `session.save()` into the Store, return the login URL. -/
def request_qr_login (s : ServiceState) (sid url : String) :
    String × ServiceState :=
  let (c, s1) := connect_client s sid
  let s2 := SessionManager.update_session_string s1 sid c.session_token
  (url, s2)

/-- `verify_code`: returns `(success, user, requires_password)` or raises.
On upstream success the post-sign-in token is persisted via
`update_session_string`; on `SessionPasswordNeededError` it returns
`(True, None, True)`; on `PhoneCodeInvalidError` it returns
`(False, None, False)` with no state change. -/
def verify_code (s : ServiceState) (sid phone code : String)
    (upstream : SignInCodeResult) :
    Except PyError (Bool × Option TUser × Bool) × ServiceState :=
  match clients_get s.clients sid with
  | none => (.error (.valueError "Session not found"), s)
  | some c =>
    match c.phone_code_hash with
    | none =>
        (.error (.valueError
          "Phone code hash not found. Call send_code_request first."), s)
    | some _ =>
      match upstream with
      | .success user tok =>
          let c' := { c with authorized := true, session_token := tok }
          let s1 := { s with clients := clients_set s.clients sid c' }
          let s2 := SessionManager.update_session_string s1 sid tok
          (.ok (true, some user, false), s2)
      | .needs_password => (.ok (true, none, true), s)
      | .invalid_code => (.ok (false, none, false), s)

/-- `verify_password`: returns the signed-in user or raises; on success the
post-sign-in token is persisted, on `PasswordHashInvalidError` a
`ValueError` is raised. -/
def verify_password (s : ServiceState) (sid password : String)
    (upstream : SignInPwdResult) : Except PyError TUser × ServiceState :=
  match clients_get s.clients sid with
  | none => (.error (.valueError "Session not found"), s)
  | some c =>
    match upstream with
    | .success user tok =>
        let c' := { c with authorized := true, session_token := tok }
        let s1 := { s with clients := clients_set s.clients sid c' }
        let s2 := SessionManager.update_session_string s1 sid tok
        (.ok user, s2)
    | .invalid_password =>
        (.error (.valueError "رمز عبور نامعتبر است"), s)

/-- `setup_message_handler`: requires a registered client and marks the
`NewMessage` handler as attached. -/
def setup_message_handler (s : ServiceState) (sid : String) :
    Except PyError Unit × ServiceState :=
  match clients_get s.clients sid with
  | none => (.error (.valueError "Session not found"), s)
  | some c =>
      (.ok (),
       { s with clients := clients_set s.clients sid ({ c with handler := true }) })

/-- The body of the `NewMessage` callback installed by
`setup_message_handler`: archive the inbound message, then the
`message.received` event.  Raises if either archive write fails (partial
writes persist, as in Python). -/
def handle_new_message_body (s : ServiceState) (sid : String)
    (agent_id : Option Int) (doc : MessageDoc)
    (archive_fail event_fail : Bool) : Except PyError Unit × ServiceState :=
  match MongoDB.save_message s doc archive_fail with
  | (.error e, s1) => (.error e, s1)
  | (.ok _, s1) =>
      MongoDB.save_event s1 sid (agent_id.getD 0) "message.received" event_fail

/-- The installed callback itself: the body runs inside
`try ... except Exception: logger.error(...)`, so every failure is
swallowed and the callback always completes. -/
def handle_new_message (s : ServiceState) (sid : String)
    (agent_id : Option Int) (doc : MessageDoc)
    (archive_fail event_fail : Bool) : ServiceState :=
  match handle_new_message_body s sid agent_id doc archive_fail event_fail with
  | (.error _, s1) => s1
  | (.ok _, s1) => s1

/-- `send_message`: connect (creating a client if absent), require
authorization, require a Store record, send upstream, then archive the
outgoing message and a `message.sent` event; archive failures are not
caught here.  Returns `(message_id, date)`. -/
def send_message (s : ServiceState) (sid : String) (chat_id : Int)
    (message : String) (reply_to : Option Int) (outcome : SendOutcome)
    (me : TUser) (archive_fail event_fail : Bool) :
    Except PyError (Int × Nat) × ServiceState :=
  let (c, s1) := connect_client s sid
  if !c.authorized then
    (.error (.valueError "Session not authorized"), s1)
  else
    match SessionManager.get_session_by_id s1 sid with
    | none => (.error (.valueError "Session not found"), s1)
    | some record =>
      match outcome with
      | .flood_wait secs =>
          (.error (.valueError s!"باید {secs} ثانیه صبر کنید"), s1)
      | .sent message_id date =>
        let doc : MessageDoc :=
          { session_id := sid, agent_id := record.agent_id,
            message_id := message_id, chat_id := chat_id, text := message,
            date := date, reply_to_message_id := reply_to, is_outgoing := true }
        match MongoDB.save_message s1 doc archive_fail with
        | (.error e, s2) => (.error e, s2)
        | (.ok _, s2) =>
          match MongoDB.save_event s2 sid record.agent_id "message.sent"
              event_fail with
          | (.error e, s3) => (.error e, s3)
          | (.ok _, s3) => (.ok (message_id, date), s3)

/-- `disconnect_client`: if a client is registered, log out / close the
connection upstream and drop the Registry entry; unknown ids are a no-op. -/
def disconnect_client (s : ServiceState) (sid : String) : ServiceState :=
  match clients_get s.clients sid with
  | some _ => { s with clients := clients_remove s.clients sid }
  | none => s

/-- `is_connected`: a registered client that is connected and authorized. -/
def is_connected (s : ServiceState) (sid : String) : Bool :=
  match clients_get s.clients sid with
  | none => false
  | some c => c.connected && c.authorized

/-- `reconnect_client`: rebuild a client from the stored resumable token.
`connect_ok t` says whether `connect()` succeeds for token `t` (a raise is
caught and reported as failure — the freshly registered client is not
removed); `auth_ok t` is the upstream's `is_user_authorized()` verdict for
a client seeded with `t`. -/
def reconnect_client (s : ServiceState) (sid : String)
    (connect_ok auth_ok : String → Bool) : Bool × ServiceState :=
  match SessionManager.get_session_by_id s sid with
  | none => (false, s)
  | some record =>
    match record.session_string with
    | none => (false, s)
    | some tok =>
      let s1 := create_client s sid tok (auth_ok tok)
      if connect_ok tok then
        let c : Client :=
          { connected := true, authorized := auth_ok tok,
            phone_code_hash := none, session_token := tok, handler := false }
        let s2 := { s1 with clients := clients_set s1.clients sid c }
        (auth_ok tok, s2)
      else
        (false, s1)

end TelegramService

/-! ### API routes (`app/api/routes.py`)

Each route is modelled after the API-key check (the claims quantify over
authorised calls).  `except`-clause handling mirrors the source: an
`HTTPException` raised inside the body is re-raised; in `verify_password`
and `send_message` a `ValueError` becomes a 400, and any other exception
becomes a 500. -/

/-- `VerifyCodeResponse` payload. -/
structure VerifyCodeResponse where
  success : Bool
  connected : Bool
  phone : Option String := none
  user_id : Option Int := none
  requires_password : Option Bool := none
  error : Option String := none
deriving Repr, DecidableEq

/-- `VerifyPasswordResponse` payload. -/
structure VerifyPasswordResponse where
  success : Bool
  connected : Bool
  phone : Option String := none
  user_id : Option Int := none
deriving Repr, DecidableEq

/-- `DisconnectResponse` payload. -/
structure DisconnectResponse where
  success : Bool
  message : String
deriving Repr, DecidableEq

/-- `StatusResponse` payload (`last_activity` kept as the raw clock). -/
structure StatusResponse where
  success : Bool
  connected : Bool
  phone : Option String := none
  user_id : Option Int := none
  last_activity : Option Nat := none
deriving Repr, DecidableEq

/-- `SendMessageResponse` payload. -/
structure SendMessageResponse where
  success : Bool
  message_id : Int
  sent_at : Nat
deriving Repr, DecidableEq

/-- `PhoneCodeResponse` payload. -/
structure PhoneCodeResponse where
  success : Bool
  session_id : String
  phone : String
deriving Repr, DecidableEq

/-- `QRCodeResponse` payload (`qr_code` is the rendered URL image). -/
structure QRCodeResponse where
  success : Bool
  session_id : String
  qr_code : String
deriving Repr, DecidableEq

namespace Routes

open SessionManager TelegramService

/-- `POST /request-qr`: create a `CREATED` Store record for a fresh
session id, then start the QR login (which registers and connects a
client and persists its initial token). -/
def request_qr (s : ServiceState) (agent_id : Int) (sid url : String) :
    ApiResult QRCodeResponse × ServiceState :=
  let s1 := create_session s agent_id sid sid
  let (qr_url, s2) := request_qr_login s1 sid url
  (.ok { success := true, session_id := sid, qr_code := qr_url }, s2)

/-- `POST /request-phone-code`: create the record, store the phone, then
request a code (registering and connecting a client and stashing the
correlation token on it). -/
def request_phone_code (s : ServiceState) (agent_id : Int)
    (sid phone hash : String) : ApiResult PhoneCodeResponse × ServiceState :=
  let s1 := create_session s agent_id sid sid
  let s2 := update_session_phone s1 sid phone
  let (_, s3) := send_code_request s2 sid phone hash
  (.ok { success := true, session_id := sid, phone := phone }, s3)

/-- `POST /verify-code`: 404 on unknown session, 400 when no phone is
stored, then the three-way outcome of `TelegramService.verify_code`; on
full success the record is marked connected and the message handler is
attached. -/
def verify_code (s : ServiceState) (sid code : String)
    (upstream : SignInCodeResult) : ApiResult VerifyCodeResponse × ServiceState :=
  match get_session_by_id s sid with
  | none => (.httpError 404 "Session not found", s)
  | some record =>
    match record.phone with
    | none =>
        (.httpError 400 "Phone number not found. Use send_code_request first.", s)
    | some phone =>
      match TelegramService.verify_code s sid phone code upstream with
      | (.error e, s1) => (.httpError 500 (pyMessage e), s1)
      | (.ok (false, _, _), s1) =>
          (.ok { success := false, connected := false,
                 error := some "کد نامعتبر است" }, s1)
      | (.ok (true, _, true), s1) =>
          (.ok { success := true, connected := false,
                 requires_password := some true }, s1)
      | (.ok (true, none, false), s1) =>
          -- `user` is None yet `requires_password` is False: the source
          -- would fault dereferencing `user.phone`; surfaced as a 500.
          (.httpError 500 "AttributeError", s1)
      | (.ok (true, some user, false), s1) =>
          let s2 := update_session_connected s1 sid
            (some (user.phone.getD phone)) user.id true
          match setup_message_handler s2 sid with
          | (.error e, s3) => (.httpError 500 (pyMessage e), s3)
          | (.ok _, s3) =>
              (.ok { success := true, connected := true,
                     phone := some (user.phone.getD phone),
                     user_id := some user.id }, s3)
where
  pyMessage : PyError → String
    | .valueError m => m
    | .generic m => m

/-- `POST /verify-password`: 404 on unknown session; a `ValueError` from
the service (wrong password, missing client) is a 400; on success the
record is marked connected and the handler attached. -/
def verify_password (s : ServiceState) (sid password : String)
    (upstream : SignInPwdResult) :
    ApiResult VerifyPasswordResponse × ServiceState :=
  match get_session_by_id s sid with
  | none => (.httpError 404 "Session not found", s)
  | some _ =>
    match TelegramService.verify_password s sid password upstream with
    | (.error (.valueError m), s1) => (.httpError 400 m, s1)
    | (.error (.generic m), s1) => (.httpError 500 m, s1)
    | (.ok user, s1) =>
        let s2 := update_session_connected s1 sid user.phone user.id true
        match setup_message_handler s2 sid with
        | (.error (.valueError m), s3) => (.httpError 400 m, s3)
        | (.error (.generic m), s3) => (.httpError 500 m, s3)
        | (.ok _, s3) =>
            (.ok { success := true, connected := true, phone := user.phone,
                   user_id := some user.id }, s3)

/-- `POST /disconnect`: drop the client (if any), delete the record
(if any), and report success either way. -/
def disconnect (s : ServiceState) (sid : String) :
    ApiResult DisconnectResponse × ServiceState :=
  let s1 := disconnect_client s sid
  let (_, s2) := delete_session s1 sid
  (.ok { success := true, message := "اتصال با موفقیت قطع شد" }, s2)

/-- `GET /status/{session_id}`: 404 on unknown session; probe the client
(connected and authorized); refresh `last_activity` only on a successful
probe; report `connected` as probe ∧ `is_active`, with the record's
fields as read before the refresh. -/
def get_status (s : ServiceState) (sid : String) :
    ApiResult StatusResponse × ServiceState :=
  match get_session_by_id s sid with
  | none => (.httpError 404 "Session not found", s)
  | some record =>
    let conn := is_connected s sid
    let s1 := if conn then update_session_activity s sid else s
    (.ok { success := true, connected := conn && record.is_active,
           phone := record.phone, user_id := record.user_id,
           last_activity := record.last_activity }, s1)

/-- `POST /send-message`: 404 on unknown session; a `ValueError` from the
service is a 400 and any other exception a 500; on success refresh
`last_activity` and return the sent message's id and date. -/
def send_message (s : ServiceState) (sid : String) (chat_id : Int)
    (message : String) (reply_to : Option Int) (outcome : SendOutcome)
    (me : TUser) (archive_fail event_fail : Bool) :
    ApiResult SendMessageResponse × ServiceState :=
  match get_session_by_id s sid with
  | none => (.httpError 404 "Session not found", s)
  | some _ =>
    match TelegramService.send_message s sid chat_id message reply_to outcome
        me archive_fail event_fail with
    | (.error (.valueError m), s1) => (.httpError 400 m, s1)
    | (.error (.generic m), s1) => (.httpError 500 m, s1)
    | (.ok (message_id, date), s1) =>
        let s2 := update_session_activity s1 sid
        (.ok { success := true, message_id := message_id, sent_at := date }, s2)

end Routes

/-! ### Startup reconciliation (`lifespan` in `app/main.py`) -/

namespace Main

open SessionManager TelegramService

/-- One iteration of the reconnect loop: skip falsy session ids; otherwise
reconnect from the stored token — on success attach the message handler,
on failure (or an exception, caught per-session) deactivate the record. -/
def reconcile_one (s : ServiceState) (sid : String)
    (connect_ok auth_ok : String → Bool) : ServiceState :=
  if sid == "" then s
  else
    match reconnect_client s sid connect_ok auth_ok with
    | (true, s1) =>
        match setup_message_handler s1 sid with
        | (.ok _, s2) => s2
        | (.error _, s2) => deactivate_session s2 sid
    | (false, s1) => deactivate_session s1 sid

/-- The startup loop: fetch all active records once, then reconcile each
in order. -/
def reconnect_all (s : ServiceState) (connect_ok auth_ok : String → Bool) :
    ServiceState :=
  (get_all_active_sessions s).foldl
    (fun st r => reconcile_one st r.session_id connect_ok auth_ok) s

end Main

/-! ### Spec-side definitions used to state the claims -/

/-- The operations of the public surface, with their upstream oracles:
one constructor per route, plus the inbound-message callback and the
startup reconciliation. -/
inductive Op where
  | request_qr (agent_id : Int) (sid url : String)
  | request_phone_code (agent_id : Int) (sid phone hash : String)
  | verify_code (sid code : String) (upstream : SignInCodeResult)
  | verify_password (sid password : String) (upstream : SignInPwdResult)
  | disconnect (sid : String)
  | get_status (sid : String)
  | send_message (sid : String) (chat_id : Int) (message : String)
      (reply_to : Option Int) (outcome : SendOutcome) (me : TUser)
      (archive_fail event_fail : Bool)
  | inbound (sid : String) (agent_id : Option Int) (doc : MessageDoc)
      (archive_fail event_fail : Bool)
  | startup (connect_ok auth_ok : String → Bool)

/-- State effect of one operation (the route response is discarded). -/
def step : Op → ServiceState → ServiceState
  | .request_qr a sid url, s => (Routes.request_qr s a sid url).2
  | .request_phone_code a sid phone hash, s =>
      (Routes.request_phone_code s a sid phone hash).2
  | .verify_code sid code upstream, s => (Routes.verify_code s sid code upstream).2
  | .verify_password sid pwd upstream, s =>
      (Routes.verify_password s sid pwd upstream).2
  | .disconnect sid, s => (Routes.disconnect s sid).2
  | .get_status sid, s => (Routes.get_status s sid).2
  | .send_message sid chat msg reply outcome me af ef, s =>
      (Routes.send_message s sid chat msg reply outcome me af ef).2
  | .inbound sid a doc af ef, s => TelegramService.handle_new_message s sid a doc af ef
  | .startup co ao, s => Main.reconnect_all s co ao

/-- Run a sequence of operations from a state. -/
def run (ops : List Op) (s : ServiceState) : ServiceState :=
  ops.foldl (fun st op => step op st) s

/-- The Registry-to-Store invariant the code actually maintains: every
session id holding a live client has some Store record (not necessarily
an active one). -/
def RegistryBacked (s : ServiceState) : Prop :=
  ∀ k, (clients_get s.clients k).isSome →
    (SessionManager.get_session_by_id s k).isSome

/-- Whether startup reconciliation succeeds for a record under the given
upstream behaviour: a stored token that both connects and authorizes. -/
def reconnect_succeeds (connect_ok auth_ok : String → Bool)
    (r : SessionRecord) : Bool :=
  match r.session_string with
  | some t => connect_ok t && auth_ok t
  | none => false

/-- Strip the activity timestamp (for the frame statement of the status
probe). -/
def erase_activity (r : SessionRecord) : SessionRecord :=
  { r with last_activity := none }

/-! ### Example states for witnesses -/

/-- The empty service state. -/
def exEmpty : ServiceState := { store := [], clients := [] }

/-- State after `CreatePhoneSession(7, "+15550000")` with session id `S`
and correlation token `h`: the `CODE_REQUESTED` configuration of the
invalid-code scenario. -/
def exPhoneFlow : ServiceState :=
  (Routes.request_phone_code exEmpty 7 "S" "+15550000" "h").2

/-- State after `CreateQRSession(42)` with session id `Q`: a record with
no phone and a client with no correlation token. -/
def exQrFlow : ServiceState :=
  (Routes.request_qr exEmpty 42 "Q" "tg://login?token=x").2

/-- State after the accepted retry of the invalid-code scenario: session
`S` is `CONNECTED` (record active, client connected, authorized, handler
attached). -/
def exConnectedFlow : ServiceState :=
  (Routes.verify_code exPhoneFlow "S" "111111"
    (.success ⟨999, some "+100"⟩ "tok2")).2

/-- A concrete normalized inbound message for exercising the relay. -/
def exDoc : MessageDoc :=
  { session_id := "S", agent_id := 7, message_id := 3, chat_id := 5,
    text := "hello", date := 50, is_outgoing := false }

/-- A Store with two active records for startup reconciliation: `A` has a
resumable token, `B` has none. -/
def exReconcileStore : ServiceState :=
  { store :=
      [{ session_id := "A", agent_id := 1, is_active := true,
         session_file := "A", session_string := some "t" },
       { session_id := "B", agent_id := 2, is_active := true,
         session_file := "B" }],
    clients := [] }

/-- Replace only the Registry component of a state (proof-side shorthand
for the `self.clients` writes of the service). -/
def set_clients (s : ServiceState) (l : List (String × Client)) : ServiceState :=
  { s with clients := l }

/-- A client after a successful sign-in that produced token `tok`
(proof-side shorthand). -/
def signed (c : Client) (tok : String) : Client :=
  { c with authorized := true, session_token := tok }

/-- A client with the message handler attached (proof-side shorthand). -/
def attach (c : Client) : Client :=
  { c with handler := true }

/-- A client rebuilt from a stored resumable token during reconnection
(proof-side shorthand): `auth` is the upstream's authorization verdict on
the token, `conn` whether the connect step has completed. -/
def seeded (tok : String) (auth conn : Bool) : Client :=
  { connected := conn, authorized := auth, phone_code_hash := none,
    session_token := tok, handler := false }


/-! ### Helper lemmas about the primitives -/

theorem clients_get_nil (k : String) : clients_get [] k = none := rfl

theorem clients_get_cons (p : String × Client) (rest : List (String × Client))
    (k : String) :
    clients_get (p :: rest) k =
      if p.1 = k then some p.2 else clients_get rest k := by
  by_cases h : p.1 = k <;> simp [clients_get, List.find?_cons, h]

theorem clients_get_set (l : List (String × Client)) (k : String) (v : Client)
    (k' : String) :
    clients_get (clients_set l k v) k' =
      if k' = k then some v else clients_get l k' := by
  induction l with
  | nil =>
      show clients_get [(k, v)] k' = _
      rw [clients_get_cons]
      by_cases h : k' = k
      · simp [h]
      · simp [h, Ne.symm h, clients_get_nil]
  | cons p rest ih =>
      by_cases hp : p.1 = k
      · have hset : clients_set (p :: rest) k v = (k, v) :: rest := by
          simp [clients_set, hp]
        rw [hset, clients_get_cons, clients_get_cons]
        by_cases h : k' = k
        · simp [h]
        · simp [h, Ne.symm h, hp]
      · have hset : clients_set (p :: rest) k v = p :: clients_set rest k v := by
          simp [clients_set, hp]
        rw [hset, clients_get_cons, clients_get_cons, ih]
        by_cases hpk : p.1 = k'
        · have : k' ≠ k := fun e => hp (hpk.trans e)
          simp [hpk, this]
        · simp [hpk]

theorem clients_get_remove (l : List (String × Client)) (k k' : String) :
    clients_get (clients_remove l k) k' =
      if k' = k then none else clients_get l k' := by
  induction l with
  | nil =>
      by_cases h : k' = k <;> simp [clients_remove, clients_get_nil, h]
  | cons p rest ih =>
      by_cases hp : p.1 = k
      · have : clients_remove (p :: rest) k = clients_remove rest k := by
          simp [clients_remove, List.filter_cons, hp]
        rw [this, ih, clients_get_cons]
        by_cases h : k' = k
        · simp [h]
        · have hne : p.1 ≠ k' := by rw [hp]; exact Ne.symm h
          simp [h, hne]
      · have : clients_remove (p :: rest) k = p :: clients_remove rest k := by
          simp [clients_remove, List.filter_cons, hp]
        rw [this, clients_get_cons, clients_get_cons, ih]
        by_cases hpk : p.1 = k'
        · have : k' ≠ k := fun e => hp (hpk.trans e)
          simp [hpk, this]
        · simp [hpk]

namespace SessionManager

theorem find?_update_record (l : List SessionRecord) (sid k : String)
    (f : SessionRecord → SessionRecord)
    (hf : ∀ r, (f r).session_id = r.session_id) :
    (l.map (fun r => if r.session_id == sid then f r else r)).find?
        (fun r => r.session_id == k) =
      (l.find? (fun r => r.session_id == k)).map
        (fun r => if r.session_id == sid then f r else r) := by
  induction l with
  | nil => rfl
  | cons a t ih =>
      by_cases ha : a.session_id = k
      · have h1 : ((if a.session_id == sid then f a else a).session_id == k)
            = true := by
          by_cases hs : (a.session_id == sid) = true
          · rw [if_pos hs]; simp [hf, ha]
          · rw [if_neg hs]; simp [ha]
        have ha' : (a.session_id == k) = true := by simp [ha]
        simp only [List.map_cons, List.find?_cons, h1, ha']
        rfl
      · have h1 : ((if a.session_id == sid then f a else a).session_id == k)
            = false := by
          by_cases hs : (a.session_id == sid) = true
          · rw [if_pos hs]; simp [hf, ha]
          · rw [if_neg hs]; simp [ha]
        have ha' : (a.session_id == k) = false := by simp [ha]
        simp only [List.map_cons, List.find?_cons, h1, ha', ih]

theorem get_session_by_id_update (s : ServiceState) (sid : String)
    (f : SessionRecord → SessionRecord) (k : String)
    (hf : ∀ r, (f r).session_id = r.session_id) :
    get_session_by_id (update_record s sid f) k =
      (get_session_by_id s k).map
        (fun r => if r.session_id == sid then f r else r) :=
  find?_update_record s.store sid k f hf

theorem get_session_by_id_update_ne (s : ServiceState) (sid : String)
    (f : SessionRecord → SessionRecord) (k : String)
    (hf : ∀ r, (f r).session_id = r.session_id) (hk : k ≠ sid) :
    get_session_by_id (update_record s sid f) k = get_session_by_id s k := by
  rw [get_session_by_id_update s sid f k hf]
  cases hfind : get_session_by_id s k with
  | none => rfl
  | some r =>
      have hr : r.session_id = k := by
        have := List.find?_some hfind
        simpa [beq_iff_eq] using this
      have hfalse : (r.session_id == sid) = false := by
        simp [hr, beq_iff_eq]; exact hk
      simp [hfalse]
      intro h
      exact absurd (hr.symm.trans h) hk

theorem get_session_by_id_update_self (s : ServiceState) (sid : String)
    (f : SessionRecord → SessionRecord) (r : SessionRecord)
    (hf : ∀ r, (f r).session_id = r.session_id)
    (h : get_session_by_id s sid = some r) :
    get_session_by_id (update_record s sid f) sid = some (f r) := by
  rw [get_session_by_id_update s sid f sid hf, h]
  have hr : r.session_id = sid := by
    have := List.find?_some h
    simpa [beq_iff_eq] using this
  simp [hr]

theorem get_session_by_id_string_self (s : ServiceState) (sid tok : String)
    (r : SessionRecord) (h : get_session_by_id s sid = some r) :
    get_session_by_id (update_session_string s sid tok) sid =
      some { r with session_string := some tok } := by
  unfold update_session_string
  exact get_session_by_id_update_self s sid _ r (fun _ => rfl) h

theorem get_session_by_id_connected_self (s : ServiceState) (sid : String)
    (phone : Option String) (uid : Int) (act : Bool) (r : SessionRecord)
    (h : get_session_by_id s sid = some r) :
    get_session_by_id (update_session_connected s sid phone uid act) sid =
      some { r with phone := phone, user_id := some uid, is_active := act,
                    connected_at := some s.now,
                    last_activity := some s.now } := by
  unfold update_session_connected
  exact get_session_by_id_update_self s sid _ r (fun _ => rfl) h

theorem get_session_by_id_activity_self (s : ServiceState) (sid : String)
    (r : SessionRecord) (h : get_session_by_id s sid = some r) :
    get_session_by_id (update_session_activity s sid) sid =
      some { r with last_activity := some s.now } := by
  unfold update_session_activity
  exact get_session_by_id_update_self s sid _ r (fun _ => rfl) h

theorem get_session_by_id_deactivate_self (s : ServiceState) (sid : String)
    (r : SessionRecord) (h : get_session_by_id s sid = some r) :
    get_session_by_id (deactivate_session s sid) sid =
      some { r with is_active := false } := by
  unfold deactivate_session
  exact get_session_by_id_update_self s sid _ r (fun _ => rfl) h

theorem get_session_by_id_update_isSome (s : ServiceState) (sid : String)
    (f : SessionRecord → SessionRecord) (k : String)
    (hf : ∀ r, (f r).session_id = r.session_id) :
    (get_session_by_id (update_record s sid f) k).isSome =
      (get_session_by_id s k).isSome := by
  rw [get_session_by_id_update s sid f k hf]
  cases get_session_by_id s k <;> rfl

theorem get_session_by_id_create (s : ServiceState) (agent_id : Int)
    (sid session_file k : String) :
    get_session_by_id (create_session s agent_id sid session_file) k =
      (get_session_by_id s k).or
        (if sid == k then
          some { session_id := sid, agent_id := agent_id, is_active := false,
                 session_file := session_file }
         else none) := by
  unfold get_session_by_id create_session
  rw [List.find?_append]
  congr 1
  by_cases h : sid = k
  · simp [List.find?, h]
  · have hfalse : (sid == k) = false := by simp [h]
    simp [List.find?, hfalse, h]

theorem get_session_by_id_delete_self (s : ServiceState) (sid : String) :
    get_session_by_id (delete_session s sid).2 sid = none := by
  unfold get_session_by_id delete_session
  simp only [List.find?_filter]
  rw [List.find?_eq_none]
  intro x _
  by_cases h : x.session_id == sid <;> simp [h]

theorem get_session_by_id_delete_ne (s : ServiceState) (sid k : String)
    (hk : k ≠ sid) :
    get_session_by_id (delete_session s sid).2 k = get_session_by_id s k := by
  unfold get_session_by_id delete_session
  simp only [List.find?_filter]
  congr 1
  funext x
  by_cases h : x.session_id == k
  · have : ¬ (x.session_id == sid) = true := by
      simp_all [beq_iff_eq]
    simp [h, this]
  · simp [h]

end SessionManager

/-! ### Claim theorems -/

/-- C1: from `CODE_REQUESTED` (record stored with a phone, client
registered with a correlation token), a RedeemCode whose code the
upstream rejects returns the invalid-code response and leaves the whole
state untouched, and a subsequent RedeemCode that the upstream accepts
returns a connected response, marks the record active and attaches the
message handler. -/
theorem C1_redeem_code_invalid_then_retry
    (s : ServiceState) (sid code code' ph hsh : String) (r : SessionRecord)
    (c : Client) (u : TUser) (tok : String)
    (hrec : SessionManager.get_session_by_id s sid = some r)
    (hphone : r.phone = some ph)
    (hcli : clients_get s.clients sid = some c)
    (hhash : c.phone_code_hash = some hsh) :
    Routes.verify_code s sid code .invalid_code =
      (.ok { success := false, connected := false,
             error := some "کد نامعتبر است" }, s) ∧
    ∃ resp s2, Routes.verify_code s sid code' (.success u tok) = (.ok resp, s2) ∧
      resp.success = true ∧ resp.connected = true ∧
      (SessionManager.get_session_by_id s2 sid).map (·.is_active) = some true ∧
      (clients_get s2.clients sid).map (·.handler) = some true := by
  have hsvc_inv : TelegramService.verify_code s sid ph code .invalid_code =
      (.ok (false, none, false), s) := by
    simp [TelegramService.verify_code, hcli, hhash]
  have hsvc_ok : TelegramService.verify_code s sid ph code' (.success u tok) =
      (.ok (true, some u, false),
        SessionManager.update_session_string
          (set_clients s (clients_set s.clients sid (signed c tok))) sid tok) := by
    simp [TelegramService.verify_code, hcli, hhash, set_clients, signed]
  have hgetA : SessionManager.get_session_by_id
      (set_clients s (clients_set s.clients sid (signed c tok))) sid
      = some r := hrec
  have hrec1 : SessionManager.get_session_by_id
      (SessionManager.update_session_string
        (set_clients s (clients_set s.clients sid (signed c tok))) sid tok) sid
      = some { r with session_string := some tok } :=
    SessionManager.get_session_by_id_string_self _ sid tok r hgetA
  refine ⟨?_, ?_⟩
  · simp [Routes.verify_code, hrec, hphone, hsvc_inv]
  · refine ⟨{ success := true, connected := true,
               phone := some (u.phone.getD ph), user_id := some u.id },
      set_clients
        (SessionManager.update_session_connected
          (SessionManager.update_session_string
            (set_clients s (clients_set s.clients sid (signed c tok))) sid tok)
          sid (some (u.phone.getD ph)) u.id true)
        (clients_set (clients_set s.clients sid (signed c tok)) sid
          (attach (signed c tok))),
      ?_, rfl, rfl, ?_, ?_⟩
    · simp only [Routes.verify_code, hrec, hphone, hsvc_ok]
      simp [TelegramService.setup_message_handler,
        SessionManager.update_session_connected, SessionManager.update_record,
        SessionManager.update_session_string, clients_get_set, set_clients,
        signed, attach]
    · show (SessionManager.get_session_by_id
          (SessionManager.update_session_connected
            (SessionManager.update_session_string
              (set_clients s (clients_set s.clients sid (signed c tok))) sid tok)
            sid (some (u.phone.getD ph)) u.id true) sid).map
          (·.is_active) = some true
      rw [SessionManager.get_session_by_id_connected_self _ sid
        (some (u.phone.getD ph)) u.id true _ hrec1]
      rfl
    · show (clients_get
          (clients_set (clients_set s.clients sid (signed c tok)) sid
            (attach (signed c tok))) sid).map (·.handler) = some true
      simp [clients_get_set, attach]

/-- The full effect of the success branch of the code-redeeming route,
used by several claims: response connected, token persisted, record
marked active, handler attached. -/
theorem verify_code_success_eq
    (s : ServiceState) (sid code ph hsh : String) (r : SessionRecord)
    (c : Client) (u : TUser) (tok : String)
    (hrec : SessionManager.get_session_by_id s sid = some r)
    (hphone : r.phone = some ph)
    (hcli : clients_get s.clients sid = some c)
    (hhash : c.phone_code_hash = some hsh) :
    Routes.verify_code s sid code (.success u tok) =
      (.ok { success := true, connected := true,
             phone := some (u.phone.getD ph), user_id := some u.id },
       set_clients
         (SessionManager.update_session_connected
           (SessionManager.update_session_string
             (set_clients s (clients_set s.clients sid (signed c tok))) sid tok)
           sid (some (u.phone.getD ph)) u.id true)
         (clients_set (clients_set s.clients sid (signed c tok)) sid
           (attach (signed c tok)))) := by
  have hsvc_ok : TelegramService.verify_code s sid ph code (.success u tok) =
      (.ok (true, some u, false),
        SessionManager.update_session_string
          (set_clients s (clients_set s.clients sid (signed c tok))) sid tok) := by
    simp [TelegramService.verify_code, hcli, hhash, set_clients, signed]
  simp only [Routes.verify_code, hrec, hphone, hsvc_ok]
  simp [TelegramService.setup_message_handler,
    SessionManager.update_session_connected, SessionManager.update_record,
    SessionManager.update_session_string, clients_get_set, set_clients,
    signed, attach]

/-- The full effect of the success branch of the password-redeeming
route. -/
theorem verify_password_success_eq
    (s : ServiceState) (sid pwd : String) (r : SessionRecord) (c : Client)
    (u : TUser) (tok : String)
    (hrec : SessionManager.get_session_by_id s sid = some r)
    (hcli : clients_get s.clients sid = some c) :
    Routes.verify_password s sid pwd (.success u tok) =
      (.ok { success := true, connected := true,
             phone := u.phone, user_id := some u.id },
       set_clients
         (SessionManager.update_session_connected
           (SessionManager.update_session_string
             (set_clients s (clients_set s.clients sid (signed c tok))) sid tok)
           sid u.phone u.id true)
         (clients_set (clients_set s.clients sid (signed c tok)) sid
           (attach (signed c tok)))) := by
  have hsvc_ok : TelegramService.verify_password s sid pwd (.success u tok) =
      (.ok u,
        SessionManager.update_session_string
          (set_clients s (clients_set s.clients sid (signed c tok))) sid tok) := by
    simp [TelegramService.verify_password, hcli, set_clients, signed]
  simp only [Routes.verify_password, hrec, hsvc_ok]
  simp [TelegramService.setup_message_handler,
    SessionManager.update_session_connected, SessionManager.update_record,
    SessionManager.update_session_string, clients_get_set, set_clients,
    signed, attach]

/-- C2: a RedeemCode for an existing session with no stored phone number
and no correlation token on its client is answered with the 400
precondition failure and mutates nothing, whatever the upstream would
have answered. -/
theorem C2_redeem_code_without_phone_auth
    (s : ServiceState) (sid code : String) (upstream : SignInCodeResult)
    (r : SessionRecord)
    (hrec : SessionManager.get_session_by_id s sid = some r)
    (hphone : r.phone = none)
    (hhash : (clients_get s.clients sid).bind (·.phone_code_hash) = none) :
    Routes.verify_code s sid code upstream =
      (.httpError 400 "Phone number not found. Use send_code_request first.",
       s) := by
  simp [Routes.verify_code, hrec, hphone]

/-- C2 witness: a QR-created session has no phone and no correlation
token; RedeemCode on it is the 400 precondition failure. -/
theorem C2_witness :
    Routes.verify_code exQrFlow "Q" "000000" .invalid_code =
      (.httpError 400 "Phone number not found. Use send_code_request first.",
       exQrFlow) :=
  C2_redeem_code_without_phone_auth exQrFlow "Q" "000000" .invalid_code
    { session_id := "Q", agent_id := 42, session_file := "Q",
      session_string := some "" }
    (by decide) rfl (by decide)

/-- C3: when the upstream accepts the code (resp. the password), the
record's stored resumable token right after the call is exactly the
token the client saved after that sign-in — in particular non-null. -/
theorem C3_success_persists_resumable_token
    (s : ServiceState) (sid code pwd ph hsh tok tok' : String)
    (r : SessionRecord) (c : Client) (u : TUser)
    (hrec : SessionManager.get_session_by_id s sid = some r)
    (hphone : r.phone = some ph)
    (hcli : clients_get s.clients sid = some c)
    (hhash : c.phone_code_hash = some hsh) :
    (∃ resp s2, Routes.verify_code s sid code (.success u tok) = (.ok resp, s2) ∧
      (SessionManager.get_session_by_id s2 sid).map (·.session_string)
        = some (some tok)) ∧
    (∃ resp2 s3,
      Routes.verify_password s sid pwd (.success u tok') = (.ok resp2, s3) ∧
      (SessionManager.get_session_by_id s3 sid).map (·.session_string)
        = some (some tok')) := by
  have hgetA : ∀ t : String, SessionManager.get_session_by_id
      (set_clients s (clients_set s.clients sid (signed c t))) sid
      = some r := fun _ => hrec
  refine ⟨⟨_, _, verify_code_success_eq s sid code ph hsh r c u tok
      hrec hphone hcli hhash, ?_⟩,
    ⟨_, _, verify_password_success_eq s sid pwd r c u tok' hrec hcli, ?_⟩⟩
  · have hrec1 : SessionManager.get_session_by_id
        (SessionManager.update_session_string
          (set_clients s (clients_set s.clients sid (signed c tok))) sid tok) sid
        = some { r with session_string := some tok } :=
      SessionManager.get_session_by_id_string_self _ sid tok r (hgetA tok)
    show (SessionManager.get_session_by_id
        (SessionManager.update_session_connected _ _ _ _ _) sid).map
        (·.session_string) = some (some tok)
    rw [SessionManager.get_session_by_id_connected_self _ sid
      (some (u.phone.getD ph)) u.id true _ hrec1]
    rfl
  · have hrec1 : SessionManager.get_session_by_id
        (SessionManager.update_session_string
          (set_clients s (clients_set s.clients sid (signed c tok'))) sid tok')
        sid = some { r with session_string := some tok' } :=
      SessionManager.get_session_by_id_string_self _ sid tok' r (hgetA tok')
    show (SessionManager.get_session_by_id
        (SessionManager.update_session_connected _ _ _ _ _) sid).map
        (·.session_string) = some (some tok')
    rw [SessionManager.get_session_by_id_connected_self _ sid
      u.phone u.id true _ hrec1]
    rfl

/-- C3 witness: concrete accepted code and password calls on the
`CODE_REQUESTED` example state persist the fresh tokens. -/
theorem C3_witness :
    (∃ resp s2, Routes.verify_code exPhoneFlow "S" "111111"
        (.success ⟨999, some "+100"⟩ "tok9") = (.ok resp, s2) ∧
      (SessionManager.get_session_by_id s2 "S").map (·.session_string)
        = some (some "tok9")) ∧
    (∃ resp2 s3, Routes.verify_password exPhoneFlow "S" "pw"
        (.success ⟨999, some "+100"⟩ "tok10") = (.ok resp2, s3) ∧
      (SessionManager.get_session_by_id s3 "S").map (·.session_string)
        = some (some "tok10")) :=
  C3_success_persists_resumable_token exPhoneFlow "S" "111111" "pw"
    "+15550000" "h" "tok9" "tok10"
    { session_id := "S", agent_id := 7, phone := some "+15550000",
      session_file := "S" }
    { connected := true, phone_code_hash := some "h" }
    ⟨999, some "+100"⟩ (by decide) rfl (by decide) rfl

/-- C1 witness: the invalid-code-then-retry scenario on the concrete
`CODE_REQUESTED` example state. -/
theorem C1_witness :
    Routes.verify_code exPhoneFlow "S" "000000" .invalid_code =
      (.ok { success := false, connected := false,
             error := some "کد نامعتبر است" }, exPhoneFlow) ∧
    ∃ resp s2, Routes.verify_code exPhoneFlow "S" "111111"
        (.success ⟨999, some "+100"⟩ "tok2") = (.ok resp, s2) ∧
      resp.success = true ∧ resp.connected = true ∧
      (SessionManager.get_session_by_id s2 "S").map (·.is_active) = some true ∧
      (clients_get s2.clients "S").map (·.handler) = some true :=
  C1_redeem_code_invalid_then_retry exPhoneFlow "S" "000000" "111111"
    "+15550000" "h"
    { session_id := "S", agent_id := 7, phone := some "+15550000",
      session_file := "S" }
    { connected := true, phone_code_hash := some "h" }
    ⟨999, some "+100"⟩ "tok2" (by decide) rfl (by decide) rfl

/-- C6: for any prior state, Disconnect reports success and deletes the
Store record, and a following GetStatus on the same id is the 404
session-not-found error. -/
theorem C6_disconnect_then_status_not_found (s : ServiceState) (sid : String) :
    ∃ s1, Routes.disconnect s sid =
        (.ok { success := true, message := "اتصال با موفقیت قطع شد" }, s1) ∧
      SessionManager.get_session_by_id s1 sid = none ∧
      Routes.get_status s1 sid = (.httpError 404 "Session not found", s1) := by
  refine ⟨(SessionManager.delete_session
      (TelegramService.disconnect_client s sid) sid).2, ?_, ?_, ?_⟩
  · rfl
  · exact SessionManager.get_session_by_id_delete_self _ sid
  · have h := SessionManager.get_session_by_id_delete_self
      (TelegramService.disconnect_client s sid) sid
    simp [Routes.get_status, h]

/-- C9: on an id unknown to both the Store and the Registry, Disconnect
still reports success and the state is exactly unchanged. -/
theorem C9_disconnect_unknown_id (s : ServiceState) (sid : String)
    (hrec : SessionManager.get_session_by_id s sid = none)
    (hcli : clients_get s.clients sid = none) :
    Routes.disconnect s sid =
      (.ok { success := true, message := "اتصال با موفقیت قطع شد" }, s) := by
  have h1 : TelegramService.disconnect_client s sid = s := by
    simp [TelegramService.disconnect_client, hcli]
  have h2 : (SessionManager.delete_session s sid).2 = s := by
    unfold SessionManager.delete_session
    have hfilter : s.store.filter (fun r => !(r.session_id == sid)) = s.store := by
      apply List.filter_eq_self.mpr
      intro a ha
      have := List.find?_eq_none.mp hrec a ha
      simp_all
    simp [hfilter]
  simp [Routes.disconnect, h1, h2]

/-- C9 witness: disconnecting a never-created id on the empty state. -/
theorem C9_witness :
    Routes.disconnect exEmpty "nope" =
      (.ok { success := true, message := "اتصال با موفقیت قطع شد" }, exEmpty) :=
  C9_disconnect_unknown_id exEmpty "nope" rfl rfl

/-- C10: a registered client that is connected but not authorized makes
SendMessage fail with the 400 "Session not authorized" error, leaving
the state — archives, store, activity timestamp — exactly unchanged. -/
theorem C10_send_message_unauthorized (s : ServiceState) (sid : String)
    (chat_id : Int) (msg : String) (reply_to : Option Int)
    (outcome : SendOutcome) (me : TUser) (af ef : Bool)
    (r : SessionRecord) (c : Client)
    (hrec : SessionManager.get_session_by_id s sid = some r)
    (hcli : clients_get s.clients sid = some c)
    (hconn : c.connected = true) (hauth : c.authorized = false) :
    Routes.send_message s sid chat_id msg reply_to outcome me af ef =
      (.httpError 400 "Session not authorized", s) := by
  have hsvc : TelegramService.send_message s sid chat_id msg reply_to outcome
      me af ef = (.error (.valueError "Session not authorized"), s) := by
    unfold TelegramService.send_message TelegramService.connect_client
    simp [hcli, hconn, hauth]
  simp [Routes.send_message, hrec, hsvc]

/-- C10 witness: sending on the phone-flow example state, whose client is
connected but not yet authorized. -/
theorem C10_witness :
    Routes.send_message exPhoneFlow "S" 5 "hi" none (.sent 11 100)
      ⟨999, none⟩ false false =
      (.httpError 400 "Session not authorized", exPhoneFlow) :=
  C10_send_message_unauthorized exPhoneFlow "S" 5 "hi" none (.sent 11 100)
    ⟨999, none⟩ false false
    { session_id := "S", agent_id := 7, phone := some "+15550000",
      session_file := "S" }
    { connected := true, phone_code_hash := some "h" }
    (by decide) rfl rfl rfl

/-- C8: a status probe changes nothing in the state except possibly the
probed record's `last_activity`: registry, archives and clock are
untouched, the store agrees after erasing activity timestamps, an
unsuccessful probe changes nothing at all, and a successful probe on an
existing record refreshes exactly its `last_activity`. -/
theorem C8_status_probe_frame (s : ServiceState) (sid : String) :
    (Routes.get_status s sid).2.clients = s.clients ∧
    (Routes.get_status s sid).2.messages = s.messages ∧
    (Routes.get_status s sid).2.events = s.events ∧
    (Routes.get_status s sid).2.now = s.now ∧
    (Routes.get_status s sid).2.store.map erase_activity
      = s.store.map erase_activity ∧
    (TelegramService.is_connected s sid = false →
      (Routes.get_status s sid).2 = s) ∧
    (∀ r, SessionManager.get_session_by_id s sid = some r →
      TelegramService.is_connected s sid = true →
      SessionManager.get_session_by_id (Routes.get_status s sid).2 sid =
        some { r with last_activity := some s.now }) := by
  cases hget : SessionManager.get_session_by_id s sid with
  | none =>
      have h : (Routes.get_status s sid).2 = s := by
        simp [Routes.get_status, hget]
      rw [h]
      refine ⟨rfl, rfl, rfl, rfl, rfl, fun _ => rfl, ?_⟩
      intro r hr
      cases hr
  | some r0 =>
      cases hconn : TelegramService.is_connected s sid with
      | false =>
          have h : (Routes.get_status s sid).2 = s := by
            simp [Routes.get_status, hget, hconn]
          rw [h]
          refine ⟨rfl, rfl, rfl, rfl, rfl, fun _ => rfl, ?_⟩
          intro r _ hc
          cases hc
      | true =>
          have h : (Routes.get_status s sid).2 =
              SessionManager.update_session_activity s sid := by
            simp [Routes.get_status, hget, hconn]
          rw [h]
          refine ⟨rfl, rfl, rfl, rfl, ?_, ?_, ?_⟩
          · show (s.store.map _).map erase_activity = _
            rw [List.map_map]
            have hcomp : erase_activity ∘
                (fun r => if r.session_id == sid then
                  { r with last_activity := some s.now } else r)
                = erase_activity := by
              funext a
              by_cases hx : (a.session_id == sid) = true <;>
                simp [hx, erase_activity, Function.comp]
            rw [hcomp]
          · intro hc
            cases hc
          · intro r hr _
            injection hr with hr0
            subst hr0
            exact SessionManager.get_session_by_id_activity_self s sid r0 hget

/-- C8 witness: the frame property instantiated at the connected example
state, where the probe succeeds. -/
theorem C8_witness :
    (Routes.get_status exConnectedFlow "S").2.clients
      = exConnectedFlow.clients ∧
    (Routes.get_status exConnectedFlow "S").2.messages
      = exConnectedFlow.messages ∧
    (Routes.get_status exConnectedFlow "S").2.events
      = exConnectedFlow.events ∧
    (Routes.get_status exConnectedFlow "S").2.now = exConnectedFlow.now ∧
    (Routes.get_status exConnectedFlow "S").2.store.map erase_activity
      = exConnectedFlow.store.map erase_activity ∧
    (TelegramService.is_connected exConnectedFlow "S" = false →
      (Routes.get_status exConnectedFlow "S").2 = exConnectedFlow) ∧
    (∀ r, SessionManager.get_session_by_id exConnectedFlow "S" = some r →
      TelegramService.is_connected exConnectedFlow "S" = true →
      SessionManager.get_session_by_id
          (Routes.get_status exConnectedFlow "S").2 "S" =
        some { r with last_activity := some exConnectedFlow.now }) :=
  C8_status_probe_frame exConnectedFlow "S"

/-- C7 counterexample: on a connected, authorized session, a failure
writing the outbound message to the archive makes SendMessage return a
500 error — not the sent message's id and timestamp — even though the
upstream send succeeded. -/
theorem C7_counterexample :
    Routes.send_message exConnectedFlow "S" 5 "hi" none (.sent 11 100)
      ⟨999, some "+100"⟩ true false =
      (.httpError 500 "Error saving message to MongoDB", exConnectedFlow) := by
  decide

/-- C7 amended: sink failures are swallowed on the inbound path — the
callback completes whether the message-archive write or the event write
fails (an archive failure leaves the state unchanged; an event failure
still leaves the archived message) — while on the outbound path either
failure after the upstream send propagates to the caller as a 500 error
instead of the sent message's id and timestamp (an event failure still
persists the archived outgoing message). -/
theorem C7_amended_sink_failures (s : ServiceState) (sid : String)
    (agent_id : Option Int) (doc : MessageDoc) (ef : Bool) (chat_id : Int)
    (msg : String) (reply_to : Option Int) (mid : Int) (date : Nat)
    (me : TUser) (r : SessionRecord) (c : Client)
    (hrec : SessionManager.get_session_by_id s sid = some r)
    (hcli : clients_get s.clients sid = some c)
    (hconn : c.connected = true) (hauth : c.authorized = true) :
    TelegramService.handle_new_message s sid agent_id doc true ef = s ∧
    TelegramService.handle_new_message s sid agent_id doc false true
      = { s with messages := s.messages ++ [doc] } ∧
    Routes.send_message s sid chat_id msg reply_to (.sent mid date) me true ef
      = (.httpError 500 "Error saving message to MongoDB", s) ∧
    Routes.send_message s sid chat_id msg reply_to (.sent mid date) me false
        true
      = (.httpError 500 "Error saving event to MongoDB",
         { s with messages := s.messages ++
             [{ session_id := sid, agent_id := r.agent_id, message_id := mid,
                chat_id := chat_id, text := msg, date := date,
                reply_to_message_id := reply_to, is_outgoing := true }] }) := by
  refine ⟨?_, ?_, ?_, ?_⟩
  · simp [TelegramService.handle_new_message,
      TelegramService.handle_new_message_body, MongoDB.save_message]
  · simp [TelegramService.handle_new_message,
      TelegramService.handle_new_message_body, MongoDB.save_message,
      MongoDB.save_event]
  · have hsvc : TelegramService.send_message s sid chat_id msg reply_to
        (.sent mid date) me true ef =
        (.error (.generic "Error saving message to MongoDB"), s) := by
      unfold TelegramService.send_message TelegramService.connect_client
      simp [hcli, hconn, hauth, hrec, MongoDB.save_message]
    simp [Routes.send_message, hrec, hsvc]
  · have hsvc2 : TelegramService.send_message s sid chat_id msg reply_to
        (.sent mid date) me false true =
        (.error (.generic "Error saving event to MongoDB"),
         { s with messages := s.messages ++
             [{ session_id := sid, agent_id := r.agent_id, message_id := mid,
                chat_id := chat_id, text := msg, date := date,
                reply_to_message_id := reply_to, is_outgoing := true }] }) := by
      unfold TelegramService.send_message TelegramService.connect_client
      simp [hcli, hconn, hauth, hrec, MongoDB.save_message,
        MongoDB.save_event]
    simp [Routes.send_message, hrec, hsvc2]

/-- C7 amended witness: all four parts on the connected example state —
archive failure and event failure, inbound and outbound. -/
theorem C7_amended_witness :
    TelegramService.handle_new_message exConnectedFlow "S" (some 7) exDoc
      true false = exConnectedFlow ∧
    TelegramService.handle_new_message exConnectedFlow "S" (some 7) exDoc
      false true
      = { exConnectedFlow with
          messages := exConnectedFlow.messages ++ [exDoc] } ∧
    Routes.send_message exConnectedFlow "S" 6 "hey" none (.sent 12 101)
      ⟨999, some "+100"⟩ true false =
      (.httpError 500 "Error saving message to MongoDB", exConnectedFlow) ∧
    Routes.send_message exConnectedFlow "S" 6 "hey" none (.sent 12 101)
      ⟨999, some "+100"⟩ false true =
      (.httpError 500 "Error saving event to MongoDB",
       { exConnectedFlow with
         messages := exConnectedFlow.messages ++
           [{ session_id := "S", agent_id := 7, message_id := 12,
              chat_id := 6, text := "hey", date := 101,
              reply_to_message_id := none, is_outgoing := true }] }) :=
  C7_amended_sink_failures exConnectedFlow "S" (some 7) exDoc false 6 "hey"
    none 12 101 ⟨999, some "+100"⟩
    { session_id := "S", agent_id := 7, phone := some "+100",
      user_id := some 999, is_active := true, connected_at := some 0,
      last_activity := some 0, session_file := "S",
      session_string := some "tok2" }
    { connected := true, authorized := true, phone_code_hash := some "h",
      session_token := "tok2", handler := true }
    (by decide) (by decide) rfl rfl

/-! ### Preservation of the Registry-to-Store invariant -/

theorem rb_clients_replace (s : ServiceState) (sid : String) (v : Client)
    (hcli : (clients_get s.clients sid).isSome)
    (h : RegistryBacked s) :
    RegistryBacked (set_clients s (clients_set s.clients sid v)) := by
  intro k hk
  by_cases hks : k = sid
  · subst hks
    exact h k hcli
  · have hk' : (clients_get s.clients k).isSome := by
      have := hk
      rw [show (set_clients s (clients_set s.clients sid v)).clients
          = clients_set s.clients sid v from rfl, clients_get_set] at this
      simpa [hks] using this
    exact h k hk'

theorem rb_clients_set_record (s : ServiceState) (sid : String) (v : Client)
    (hrec : (SessionManager.get_session_by_id s sid).isSome)
    (h : RegistryBacked s) :
    RegistryBacked (set_clients s (clients_set s.clients sid v)) := by
  intro k hk
  by_cases hks : k = sid
  · subst hks
    exact hrec
  · have hk' : (clients_get s.clients k).isSome := by
      have := hk
      rw [show (set_clients s (clients_set s.clients sid v)).clients
          = clients_set s.clients sid v from rfl, clients_get_set] at this
      simpa [hks] using this
    exact h k hk'

theorem rb_clients_remove (s : ServiceState) (sid : String)
    (h : RegistryBacked s) :
    RegistryBacked (set_clients s (clients_remove s.clients sid)) := by
  intro k hk
  rw [show (set_clients s (clients_remove s.clients sid)).clients
      = clients_remove s.clients sid from rfl, clients_get_remove] at hk
  by_cases hks : k = sid
  · simp [hks] at hk
  · simp [hks] at hk
    exact h k hk

theorem rb_update_record (s : ServiceState) (sid : String)
    (f : SessionRecord → SessionRecord)
    (hf : ∀ r, (f r).session_id = r.session_id)
    (h : RegistryBacked s) :
    RegistryBacked (SessionManager.update_record s sid f) := by
  intro k hk
  rw [show SessionManager.get_session_by_id
        (SessionManager.update_record s sid f) k
      = (SessionManager.get_session_by_id s k).map
          (fun r => if r.session_id == sid then f r else r)
    from SessionManager.get_session_by_id_update s sid f k hf]
  have hk' := h k hk
  cases hg : SessionManager.get_session_by_id s k with
  | none => rw [hg] at hk'; cases hk'
  | some r => rfl

theorem rb_update_session_string (s : ServiceState) (sid tok : String)
    (h : RegistryBacked s) :
    RegistryBacked (SessionManager.update_session_string s sid tok) :=
  rb_update_record s sid _ (fun _ => rfl) h

theorem rb_update_session_connected (s : ServiceState) (sid : String)
    (phone : Option String) (uid : Int) (act : Bool)
    (h : RegistryBacked s) :
    RegistryBacked
      (SessionManager.update_session_connected s sid phone uid act) :=
  rb_update_record s sid _ (fun _ => rfl) h

theorem rb_update_session_phone (s : ServiceState) (sid phone : String)
    (h : RegistryBacked s) :
    RegistryBacked (SessionManager.update_session_phone s sid phone) :=
  rb_update_record s sid _ (fun _ => rfl) h

theorem rb_update_session_activity (s : ServiceState) (sid : String)
    (h : RegistryBacked s) :
    RegistryBacked (SessionManager.update_session_activity s sid) :=
  rb_update_record s sid _ (fun _ => rfl) h

theorem rb_deactivate_session (s : ServiceState) (sid : String)
    (h : RegistryBacked s) :
    RegistryBacked (SessionManager.deactivate_session s sid) :=
  rb_update_record s sid _ (fun _ => rfl) h

theorem rb_create_session (s : ServiceState) (a : Int) (sid file : String)
    (h : RegistryBacked s) :
    RegistryBacked (SessionManager.create_session s a sid file) := by
  intro k hk
  have hk' := h k hk
  rw [SessionManager.get_session_by_id_create]
  cases hg : SessionManager.get_session_by_id s k with
  | none => rw [hg] at hk'; cases hk'
  | some r => rfl

theorem rb_delete_after_remove (s : ServiceState) (sid : String)
    (hcli : clients_get s.clients sid = none)
    (h : RegistryBacked s) :
    RegistryBacked (SessionManager.delete_session s sid).2 := by
  intro k hk
  by_cases hks : k = sid
  · subst hks
    rw [show (SessionManager.delete_session s k).2.clients = s.clients
      from rfl, hcli] at hk
    cases hk
  · rw [SessionManager.get_session_by_id_delete_ne s sid k hks]
    exact h k hk

theorem get_create_self_isSome (s : ServiceState) (a : Int) (sid file : String) :
    (SessionManager.get_session_by_id
      (SessionManager.create_session s a sid file) sid).isSome := by
  rw [SessionManager.get_session_by_id_create]
  cases hg : SessionManager.get_session_by_id s sid <;> simp [Option.or]

theorem get_eq_of_store_eq (s s2 : ServiceState) (k : String)
    (hst : s2.store = s.store) :
    SessionManager.get_session_by_id s2 k
      = SessionManager.get_session_by_id s k := by
  unfold SessionManager.get_session_by_id
  rw [hst]

theorem connect_client_eq_connected (s : ServiceState) (sid : String)
    (c : Client) (hcli : clients_get s.clients sid = some c)
    (hc : c.connected = true) :
    TelegramService.connect_client s sid = (c, s) := by
  unfold TelegramService.connect_client
  simp [hcli, hc]

theorem connect_client_eq_disconnected (s : ServiceState) (sid : String)
    (c : Client) (hcli : clients_get s.clients sid = some c)
    (hc : c.connected = false) :
    TelegramService.connect_client s sid =
      ({ c with connected := true },
       set_clients s (clients_set s.clients sid ({ c with connected := true }))) := by
  unfold TelegramService.connect_client
  simp [hcli, hc, set_clients]

theorem connect_client_eq_absent (s : ServiceState) (sid : String)
    (hcli : clients_get s.clients sid = none) :
    TelegramService.connect_client s sid =
      (({ connected := true } : Client),
       set_clients (TelegramService.create_client s sid "" false)
         (clients_set (clients_set s.clients sid ({} : Client)) sid
           ({ connected := true } : Client))) := by
  unfold TelegramService.connect_client TelegramService.create_client
  simp [hcli, set_clients, clients_get_set]

theorem connect_client_store_eq (s : ServiceState) (sid : String) :
    (TelegramService.connect_client s sid).2.store = s.store := by
  cases hcli : clients_get s.clients sid with
  | none => rw [connect_client_eq_absent s sid hcli]; rfl
  | some c =>
      cases hc : c.connected with
      | true => rw [connect_client_eq_connected s sid c hcli hc]
      | false => rw [connect_client_eq_disconnected s sid c hcli hc]; rfl

theorem rb_connect_client (s : ServiceState) (sid : String)
    (hrec : (SessionManager.get_session_by_id s sid).isSome)
    (h : RegistryBacked s) :
    RegistryBacked (TelegramService.connect_client s sid).2 := by
  cases hcli : clients_get s.clients sid with
  | none =>
      rw [connect_client_eq_absent s sid hcli]
      have h1 : RegistryBacked
          (set_clients s (clients_set s.clients sid ({} : Client))) :=
        rb_clients_set_record s sid _ hrec h
      have h2 := rb_clients_replace
        (set_clients s (clients_set s.clients sid ({} : Client))) sid
        ({ connected := true } : Client)
        (by rw [show (set_clients s (clients_set s.clients sid ({} : Client))).clients
              = clients_set s.clients sid ({} : Client) from rfl, clients_get_set]
            simp)
        h1
      exact h2
  | some c =>
      cases hc : c.connected with
      | true => rw [connect_client_eq_connected s sid c hcli hc]; exact h
      | false =>
          rw [connect_client_eq_disconnected s sid c hcli hc]
          exact rb_clients_replace s sid _ (by rw [hcli]; rfl) h

theorem rb_setup_message_handler (s : ServiceState) (sid : String)
    (h : RegistryBacked s) :
    RegistryBacked (TelegramService.setup_message_handler s sid).2 := by
  unfold TelegramService.setup_message_handler
  cases hcli : clients_get s.clients sid with
  | none => exact h
  | some c => exact rb_clients_replace s sid _ (by rw [hcli]; rfl) h

theorem rb_verify_code_svc (s : ServiceState) (sid ph code : String)
    (upstream : SignInCodeResult) (h : RegistryBacked s) :
    RegistryBacked (TelegramService.verify_code s sid ph code upstream).2 := by
  cases hcli : clients_get s.clients sid with
  | none =>
      have he : (TelegramService.verify_code s sid ph code upstream).2 = s := by
        simp [TelegramService.verify_code, hcli]
      rw [he]; exact h
  | some c =>
      cases hhash : c.phone_code_hash with
      | none =>
          have he : (TelegramService.verify_code s sid ph code upstream).2
              = s := by
            simp [TelegramService.verify_code, hcli, hhash]
          rw [he]; exact h
      | some hsh =>
          cases upstream with
          | needs_password =>
              have he : (TelegramService.verify_code s sid ph code
                  .needs_password).2 = s := by
                simp [TelegramService.verify_code, hcli, hhash]
              rw [he]; exact h
          | invalid_code =>
              have he : (TelegramService.verify_code s sid ph code
                  .invalid_code).2 = s := by
                simp [TelegramService.verify_code, hcli, hhash]
              rw [he]; exact h
          | success u tok =>
              have he : (TelegramService.verify_code s sid ph code
                  (.success u tok)).2
                  = SessionManager.update_session_string
                      (set_clients s (clients_set s.clients sid (signed c tok)))
                      sid tok := by
                simp [TelegramService.verify_code, hcli, hhash, set_clients,
                  signed]
              rw [he]
              exact rb_update_session_string _ sid tok
                (rb_clients_replace s sid _ (by rw [hcli]; rfl) h)

theorem rb_verify_password_svc (s : ServiceState) (sid pwd : String)
    (upstream : SignInPwdResult) (h : RegistryBacked s) :
    RegistryBacked (TelegramService.verify_password s sid pwd upstream).2 := by
  cases hcli : clients_get s.clients sid with
  | none =>
      have he : (TelegramService.verify_password s sid pwd upstream).2 = s := by
        simp [TelegramService.verify_password, hcli]
      rw [he]; exact h
  | some c =>
      cases upstream with
      | invalid_password =>
          have he : (TelegramService.verify_password s sid pwd
              .invalid_password).2 = s := by
            simp [TelegramService.verify_password, hcli]
          rw [he]; exact h
      | success u tok =>
          have he : (TelegramService.verify_password s sid pwd
              (.success u tok)).2
              = SessionManager.update_session_string
                  (set_clients s (clients_set s.clients sid (signed c tok)))
                  sid tok := by
            simp [TelegramService.verify_password, hcli, set_clients, signed]
          rw [he]
          exact rb_update_session_string _ sid tok
            (rb_clients_replace s sid _ (by rw [hcli]; rfl) h)

theorem rb_messages_events (s : ServiceState)
    (m : List MessageDoc) (e : List EventDoc) (h : RegistryBacked s) :
    RegistryBacked { s with messages := m, events := e } := by
  intro k hk
  exact h k hk

theorem rb_send_message_svc (s : ServiceState) (sid : String) (chat_id : Int)
    (msg : String) (reply_to : Option Int) (outcome : SendOutcome)
    (me : TUser) (af ef : Bool)
    (hrec : (SessionManager.get_session_by_id s sid).isSome)
    (h : RegistryBacked s) :
    RegistryBacked (TelegramService.send_message s sid chat_id msg reply_to
      outcome me af ef).2 := by
  unfold TelegramService.send_message
  rcases hcc : TelegramService.connect_client s sid with ⟨c, s1⟩
  have h1 : RegistryBacked s1 := by
    have := rb_connect_client s sid hrec h
    rwa [hcc] at this
  cases hau : c.authorized with
  | false => simpa [hau] using h1
  | true =>
      simp only [hau, Bool.not_true]
      cases hget1 : SessionManager.get_session_by_id s1 sid with
      | none => exact h1
      | some record =>
          cases outcome with
          | flood_wait secs => exact h1
          | sent mid date =>
              cases af with
              | true => simpa [MongoDB.save_message] using h1
              | false =>
                  cases ef with
                  | true =>
                      simp [MongoDB.save_message, MongoDB.save_event]
                      intro k hk
                      exact h1 k hk
                  | false =>
                      simp [MongoDB.save_message, MongoDB.save_event]
                      intro k hk
                      exact h1 k hk

theorem rb_handle_new_message (s : ServiceState) (sid : String)
    (agent_id : Option Int) (doc : MessageDoc) (af ef : Bool)
    (h : RegistryBacked s) :
    RegistryBacked (TelegramService.handle_new_message s sid agent_id doc
      af ef) := by
  unfold TelegramService.handle_new_message
    TelegramService.handle_new_message_body
  cases af with
  | true => simpa [MongoDB.save_message] using h
  | false =>
      cases ef with
      | true =>
          simp [MongoDB.save_message, MongoDB.save_event]
          intro k hk
          exact h k hk
      | false =>
          simp [MongoDB.save_message, MongoDB.save_event]
          intro k hk
          exact h k hk

theorem rb_disconnect_client (s : ServiceState) (sid : String)
    (h : RegistryBacked s) :
    RegistryBacked (TelegramService.disconnect_client s sid) := by
  unfold TelegramService.disconnect_client
  cases hcli : clients_get s.clients sid with
  | none => exact h
  | some c => exact rb_clients_remove s sid h

theorem disconnect_client_no_client (s : ServiceState) (sid : String) :
    clients_get (TelegramService.disconnect_client s sid).clients sid
      = none := by
  unfold TelegramService.disconnect_client
  cases hcli : clients_get s.clients sid with
  | none => exact hcli
  | some c =>
      show clients_get (clients_remove s.clients sid) sid = none
      rw [clients_get_remove]
      simp

theorem reconnect_client_eq_no_record (s : ServiceState) (sid : String)
    (co ao : String → Bool)
    (hrec : SessionManager.get_session_by_id s sid = none) :
    TelegramService.reconnect_client s sid co ao = (false, s) := by
  simp [TelegramService.reconnect_client, hrec]

theorem reconnect_client_eq_no_token (s : ServiceState) (sid : String)
    (co ao : String → Bool) (record : SessionRecord)
    (hrec : SessionManager.get_session_by_id s sid = some record)
    (hstr : record.session_string = none) :
    TelegramService.reconnect_client s sid co ao = (false, s) := by
  simp [TelegramService.reconnect_client, hrec, hstr]

theorem reconnect_client_eq_connect_fail (s : ServiceState) (sid : String)
    (co ao : String → Bool) (record : SessionRecord) (tok : String)
    (hrec : SessionManager.get_session_by_id s sid = some record)
    (hstr : record.session_string = some tok)
    (hco : co tok = false) :
    TelegramService.reconnect_client s sid co ao =
      (false, set_clients s
        (clients_set s.clients sid (seeded tok (ao tok) false))) := by
  simp [TelegramService.reconnect_client, TelegramService.create_client,
    hrec, hstr, hco, set_clients, seeded]

theorem reconnect_client_eq_connect_ok (s : ServiceState) (sid : String)
    (co ao : String → Bool) (record : SessionRecord) (tok : String)
    (hrec : SessionManager.get_session_by_id s sid = some record)
    (hstr : record.session_string = some tok)
    (hco : co tok = true) :
    TelegramService.reconnect_client s sid co ao =
      (ao tok, set_clients s
        (clients_set (clients_set s.clients sid (seeded tok (ao tok) false))
          sid (seeded tok (ao tok) true))) := by
  simp [TelegramService.reconnect_client, TelegramService.create_client,
    hrec, hstr, hco, set_clients, seeded]

theorem rb_reconnect_client (s : ServiceState) (sid : String)
    (co ao : String → Bool) (h : RegistryBacked s) :
    RegistryBacked (TelegramService.reconnect_client s sid co ao).2 := by
  cases hrec : SessionManager.get_session_by_id s sid with
  | none => rw [reconnect_client_eq_no_record s sid co ao hrec]; exact h
  | some record =>
      have hrs : (SessionManager.get_session_by_id s sid).isSome := by
        rw [hrec]; rfl
      cases hstr : record.session_string with
      | none =>
          rw [reconnect_client_eq_no_token s sid co ao record hrec hstr]
          exact h
      | some tok =>
          have h1 : RegistryBacked
              (set_clients s (clients_set s.clients sid
                (seeded tok (ao tok) false))) :=
            rb_clients_set_record s sid _ hrs h
          cases hco : co tok with
          | false =>
              rw [reconnect_client_eq_connect_fail s sid co ao record tok
                hrec hstr hco]
              exact h1
          | true =>
              rw [reconnect_client_eq_connect_ok s sid co ao record tok
                hrec hstr hco]
              apply rb_clients_replace _ sid _ ?_ h1
              rw [show (set_clients s (clients_set s.clients sid
                  (seeded tok (ao tok) false))).clients
                = clients_set s.clients sid (seeded tok (ao tok) false)
                from rfl, clients_get_set]
              simp

theorem rb_reconcile_one (s : ServiceState) (sid : String)
    (co ao : String → Bool) (h : RegistryBacked s) :
    RegistryBacked (Main.reconcile_one s sid co ao) := by
  unfold Main.reconcile_one
  by_cases hid : (sid == "") = true
  · rw [if_pos hid]; exact h
  · rw [if_neg hid]
    rcases hrc : TelegramService.reconnect_client s sid co ao with ⟨ok, s1⟩
    have h1 : RegistryBacked s1 := by
      have := rb_reconnect_client s sid co ao h
      rwa [hrc] at this
    cases ok with
    | false => exact rb_deactivate_session s1 sid h1
    | true =>
        rcases hset : TelegramService.setup_message_handler s1 sid with ⟨res, s2⟩
        show RegistryBacked
          (match TelegramService.setup_message_handler s1 sid with
            | (.ok _, s2) => s2
            | (.error _, s2) => SessionManager.deactivate_session s2 sid)
        rw [hset]
        have h2 : RegistryBacked s2 := by
          have := rb_setup_message_handler s1 sid h1
          rwa [hset] at this
        cases res with
        | ok _ => exact h2
        | error _ => exact rb_deactivate_session s2 sid h2

theorem rb_reconnect_all (s : ServiceState) (co ao : String → Bool)
    (h : RegistryBacked s) :
    RegistryBacked (Main.reconnect_all s co ao) := by
  unfold Main.reconnect_all
  generalize SessionManager.get_all_active_sessions s = l
  induction l generalizing s with
  | nil => exact h
  | cons r rest ih =>
      exact ih (Main.reconcile_one s r.session_id co ao)
        (rb_reconcile_one s r.session_id co ao h)

theorem request_qr_login_eq (s : ServiceState) (sid url : String)
    (c : Client) (s1 : ServiceState)
    (hcc : TelegramService.connect_client s sid = (c, s1)) :
    TelegramService.request_qr_login s sid url =
      (url, SessionManager.update_session_string s1 sid c.session_token) := by
  unfold TelegramService.request_qr_login
  rw [hcc]

theorem send_code_request_eq (s : ServiceState) (sid phone hash : String)
    (c : Client) (s1 : ServiceState)
    (hcc : TelegramService.connect_client s sid = (c, s1)) :
    TelegramService.send_code_request s sid phone hash =
      (hash, set_clients s1 (clients_set s1.clients sid
        ({ c with phone_code_hash := some hash }))) := by
  unfold TelegramService.send_code_request
  rw [hcc]
  rfl

theorem rb_step (op : Op) (s : ServiceState) (h : RegistryBacked s) :
    RegistryBacked (step op s) := by
  cases op with
  | request_qr a sid url =>
      show RegistryBacked (Routes.request_qr s a sid url).2
      rcases hcc : TelegramService.connect_client
        (SessionManager.create_session s a sid sid) sid with ⟨c, s2⟩
      have hroute : (Routes.request_qr s a sid url).2 =
          SessionManager.update_session_string s2 sid c.session_token := by
        simp only [Routes.request_qr]
        rw [request_qr_login_eq _ sid url c s2 hcc]
      rw [hroute]
      apply rb_update_session_string
      have hx := rb_connect_client (SessionManager.create_session s a sid sid)
        sid (get_create_self_isSome s a sid sid)
        (rb_create_session s a sid sid h)
      rw [hcc] at hx
      exact hx
  | request_phone_code a sid phone hash =>
      show RegistryBacked (Routes.request_phone_code s a sid phone hash).2
      rcases hcc : TelegramService.connect_client
        (SessionManager.update_session_phone
          (SessionManager.create_session s a sid sid) sid phone) sid
        with ⟨c, s3⟩
      have hroute : (Routes.request_phone_code s a sid phone hash).2 =
          set_clients s3 (clients_set s3.clients sid
            ({ c with phone_code_hash := some hash })) := by
        simp only [Routes.request_phone_code]
        rw [send_code_request_eq _ sid phone hash c s3 hcc]
      rw [hroute]
      have hpre : (SessionManager.get_session_by_id
          (SessionManager.update_session_phone
            (SessionManager.create_session s a sid sid) sid phone)
          sid).isSome := by
        unfold SessionManager.update_session_phone
        rw [SessionManager.get_session_by_id_update_isSome
          (SessionManager.create_session s a sid sid) sid
          (fun r => { r with phone := some phone }) sid (fun _ => rfl)]
        exact get_create_self_isSome s a sid sid
      have h3 : RegistryBacked s3 := by
        have hx := rb_connect_client
          (SessionManager.update_session_phone
            (SessionManager.create_session s a sid sid) sid phone) sid hpre
          (rb_update_session_phone _ sid phone (rb_create_session s a sid sid h))
        rw [hcc] at hx
        exact hx
      have hrec3 : (SessionManager.get_session_by_id s3 sid).isSome := by
        have hst : s3.store = (SessionManager.update_session_phone
            (SessionManager.create_session s a sid sid) sid phone).store := by
          have hcs := connect_client_store_eq
            (SessionManager.update_session_phone
              (SessionManager.create_session s a sid sid) sid phone) sid
          rw [hcc] at hcs
          exact hcs
        rw [get_eq_of_store_eq
          (SessionManager.update_session_phone
            (SessionManager.create_session s a sid sid) sid phone) s3 sid hst]
        exact hpre
      exact rb_clients_set_record s3 sid _ hrec3 h3
  | verify_code sid code upstream =>
      show RegistryBacked (Routes.verify_code s sid code upstream).2
      unfold Routes.verify_code
      cases hrec : SessionManager.get_session_by_id s sid with
      | none => exact h
      | some r =>
          dsimp only
          cases hphone : r.phone with
          | none => exact h
          | some ph =>
              dsimp only
              rcases hsvc : TelegramService.verify_code s sid ph code upstream
                with ⟨res, s1⟩
              have h1 : RegistryBacked s1 := by
                have hx := rb_verify_code_svc s sid ph code upstream h
                rwa [hsvc] at hx
              rcases res with e | ⟨b1, ou, b2⟩
              · exact h1
              · cases b1 with
                | false => exact h1
                | true =>
                    cases ou with
                    | none =>
                        cases b2 with
                        | true => exact h1
                        | false => exact h1
                    | some user =>
                        cases b2 with
                        | true => exact h1
                        | false =>
                            dsimp only
                            rcases hset : TelegramService.setup_message_handler
                              (SessionManager.update_session_connected s1 sid
                                (some (user.phone.getD ph)) user.id true) sid
                              with ⟨res2, s3⟩
                            have h3 : RegistryBacked s3 := by
                              have hx := rb_setup_message_handler
                                (SessionManager.update_session_connected s1 sid
                                  (some (user.phone.getD ph)) user.id true) sid
                                (rb_update_session_connected s1 sid
                                  (some (user.phone.getD ph)) user.id true h1)
                              rwa [hset] at hx
                            cases res2 with
                            | ok _ => exact h3
                            | error e => exact h3
  | verify_password sid pwd upstream =>
      show RegistryBacked (Routes.verify_password s sid pwd upstream).2
      unfold Routes.verify_password
      cases hrec : SessionManager.get_session_by_id s sid with
      | none => exact h
      | some r =>
          dsimp only
          rcases hsvc : TelegramService.verify_password s sid pwd upstream
            with ⟨res, s1⟩
          have h1 : RegistryBacked s1 := by
            have hx := rb_verify_password_svc s sid pwd upstream h
            rwa [hsvc] at hx
          rcases res with e | user
          · cases e with
            | valueError m => exact h1
            | generic m => exact h1
          · dsimp only
            rcases hset : TelegramService.setup_message_handler
              (SessionManager.update_session_connected s1 sid user.phone
                user.id true) sid with ⟨res2, s3⟩
            have h3 : RegistryBacked s3 := by
              have hx := rb_setup_message_handler
                (SessionManager.update_session_connected s1 sid user.phone
                  user.id true) sid
                (rb_update_session_connected s1 sid user.phone user.id true h1)
              rwa [hset] at hx
            cases res2 with
            | ok _ => exact h3
            | error e =>
                cases e with
                | valueError m => exact h3
                | generic m => exact h3
  | disconnect sid =>
      show RegistryBacked (Routes.disconnect s sid).2
      unfold Routes.disconnect
      exact rb_delete_after_remove (TelegramService.disconnect_client s sid) sid
        (disconnect_client_no_client s sid) (rb_disconnect_client s sid h)
  | get_status sid =>
      show RegistryBacked (Routes.get_status s sid).2
      unfold Routes.get_status
      cases hrec : SessionManager.get_session_by_id s sid with
      | none => exact h
      | some r =>
          dsimp only
          cases hconn : TelegramService.is_connected s sid with
          | true => exact rb_update_session_activity s sid h
          | false => exact h
  | send_message sid chat msg reply outcome me af ef =>
      show RegistryBacked (Routes.send_message s sid chat msg reply outcome
        me af ef).2
      unfold Routes.send_message
      cases hrec : SessionManager.get_session_by_id s sid with
      | none => exact h
      | some r =>
          dsimp only
          rcases hsvc : TelegramService.send_message s sid chat msg reply
            outcome me af ef with ⟨res, s1⟩
          have h1 : RegistryBacked s1 := by
            have hx := rb_send_message_svc s sid chat msg reply outcome me af ef
              (by rw [hrec]; rfl) h
            rwa [hsvc] at hx
          rcases res with e | ⟨mid, date⟩
          · cases e with
            | valueError m => exact h1
            | generic m => exact h1
          · dsimp only
            exact rb_update_session_activity s1 sid h1
  | inbound sid a doc af ef => exact rb_handle_new_message s sid a doc af ef h
  | startup co ao => exact rb_reconnect_all s co ao h

/-- C4 counterexample: one step after startup — a phone session created
and its code requested — the session holds a live client in the Registry
while its Store record still has `is_active = false`, so "Registry entry
implies `is_active = true`" fails at this point of the sequence. -/
theorem C4_counterexample :
    (clients_get
      (run [.request_phone_code 7 "S" "+15550000" "h"] exEmpty).clients
      "S").isSome = true ∧
    (SessionManager.get_session_by_id
      (run [.request_phone_code 7 "S" "+15550000" "h"] exEmpty) "S").map
      (·.is_active) = some false := by
  decide

/-- C4 amended: at every point of every operation sequence, a session id
with a live Registry client has some Store record — but not necessarily
one with `is_active = true` (the flag only becomes true on completed
authentication). -/
theorem C4_amended_registry_backed (ops : List Op) (s0 : ServiceState)
    (h : RegistryBacked s0) : RegistryBacked (run ops s0) := by
  induction ops generalizing s0 with
  | nil => exact h
  | cons op rest ih => exact ih (step op s0) (rb_step op s0 h)

/-- C4 amended witness: the invariant holds after a concrete sequence
covering creation, authentication, probing and disposal, starting from
the empty state. -/
theorem C4_witness :
    RegistryBacked (run
      [.request_phone_code 7 "S" "+15550000" "h",
       .verify_code "S" "111111" (.success ⟨999, some "+100"⟩ "tok2"),
       .get_status "S",
       .send_message "S" 5 "hi" none (.sent 11 100) ⟨999, some "+100"⟩
         false false,
       .disconnect "S"] exEmpty) :=
  C4_amended_registry_backed _ exEmpty
    (fun k hk => by simp [exEmpty, clients_get] at hk)

/-! ### Startup reconciliation: frame and outcome -/

theorem setup_message_handler_frame (s : ServiceState) (sid k : String)
    (hk : k ≠ sid) :
    SessionManager.get_session_by_id
        (TelegramService.setup_message_handler s sid).2 k
      = SessionManager.get_session_by_id s k ∧
    clients_get (TelegramService.setup_message_handler s sid).2.clients k
      = clients_get s.clients k := by
  unfold TelegramService.setup_message_handler
  cases hcli : clients_get s.clients sid with
  | none => exact ⟨rfl, rfl⟩
  | some c =>
      refine ⟨rfl, ?_⟩
      show clients_get
        (clients_set s.clients sid ({ c with handler := true })) k
        = clients_get s.clients k
      rw [clients_get_set]
      simp [hk]

theorem deactivate_session_frame (s : ServiceState) (sid k : String)
    (hk : k ≠ sid) :
    SessionManager.get_session_by_id
        (SessionManager.deactivate_session s sid) k
      = SessionManager.get_session_by_id s k ∧
    clients_get (SessionManager.deactivate_session s sid).clients k
      = clients_get s.clients k := by
  constructor
  · unfold SessionManager.deactivate_session
    exact SessionManager.get_session_by_id_update_ne s sid _ k (fun _ => rfl) hk
  · rfl

theorem reconnect_client_frame (s : ServiceState) (sid k : String)
    (co ao : String → Bool) (hk : k ≠ sid) :
    SessionManager.get_session_by_id
        (TelegramService.reconnect_client s sid co ao).2 k
      = SessionManager.get_session_by_id s k ∧
    clients_get (TelegramService.reconnect_client s sid co ao).2.clients k
      = clients_get s.clients k := by
  cases hrec : SessionManager.get_session_by_id s sid with
  | none =>
      rw [reconnect_client_eq_no_record s sid co ao hrec]
      exact ⟨rfl, rfl⟩
  | some record =>
      cases hstr : record.session_string with
      | none =>
          rw [reconnect_client_eq_no_token s sid co ao record hrec hstr]
          exact ⟨rfl, rfl⟩
      | some tok =>
          cases hco : co tok with
          | false =>
              rw [reconnect_client_eq_connect_fail s sid co ao record tok
                hrec hstr hco]
              refine ⟨rfl, ?_⟩
              show clients_get
                (clients_set s.clients sid (seeded tok (ao tok) false)) k
                = clients_get s.clients k
              rw [clients_get_set]
              simp [hk]
          | true =>
              rw [reconnect_client_eq_connect_ok s sid co ao record tok
                hrec hstr hco]
              refine ⟨rfl, ?_⟩
              show clients_get
                (clients_set
                  (clients_set s.clients sid (seeded tok (ao tok) false)) sid
                  (seeded tok (ao tok) true)) k
                = clients_get s.clients k
              rw [clients_get_set, clients_get_set]
              simp [hk]

theorem reconcile_one_frame (s : ServiceState) (sid k : String)
    (co ao : String → Bool) (hk : k ≠ sid) :
    SessionManager.get_session_by_id (Main.reconcile_one s sid co ao) k
      = SessionManager.get_session_by_id s k ∧
    clients_get (Main.reconcile_one s sid co ao).clients k
      = clients_get s.clients k := by
  unfold Main.reconcile_one
  by_cases hid : (sid == "") = true
  · rw [if_pos hid]; exact ⟨rfl, rfl⟩
  · rw [if_neg hid]
    rcases hrc : TelegramService.reconnect_client s sid co ao with ⟨ok, s1⟩
    have hf1 := reconnect_client_frame s sid k co ao hk
    rw [hrc] at hf1
    cases ok with
    | false =>
        have hfd := deactivate_session_frame s1 sid k hk
        exact ⟨hfd.1.trans hf1.1, hfd.2.trans hf1.2⟩
    | true =>
        show SessionManager.get_session_by_id
            (match TelegramService.setup_message_handler s1 sid with
              | (.ok _, s2) => s2
              | (.error _, s2) => SessionManager.deactivate_session s2 sid) k
          = SessionManager.get_session_by_id s k ∧
          clients_get
            (match TelegramService.setup_message_handler s1 sid with
              | (.ok _, s2) => s2
              | (.error _, s2) =>
                  SessionManager.deactivate_session s2 sid).clients k
          = clients_get s.clients k
        rcases hset : TelegramService.setup_message_handler s1 sid
          with ⟨res, s2⟩
        have hf2 := setup_message_handler_frame s1 sid k hk
        rw [hset] at hf2
        cases res with
        | ok _ => exact ⟨hf2.1.trans hf1.1, hf2.2.trans hf1.2⟩
        | error _ =>
            have hfd := deactivate_session_frame s2 sid k hk
            exact ⟨hfd.1.trans (hf2.1.trans hf1.1),
                   hfd.2.trans (hf2.2.trans hf1.2)⟩

theorem reconcile_one_outcome (st : ServiceState) (r : SessionRecord)
    (co ao : String → Bool)
    (hrec : SessionManager.get_session_by_id st r.session_id = some r)
    (hcli : clients_get st.clients r.session_id = none)
    (hid : r.session_id ≠ "") :
    (reconnect_succeeds co ao r = true →
      SessionManager.get_session_by_id
          (Main.reconcile_one st r.session_id co ao) r.session_id = some r ∧
      ∃ c, clients_get (Main.reconcile_one st r.session_id co ao).clients
          r.session_id = some c ∧
        c.handler = true ∧ c.connected = true ∧ c.authorized = true) ∧
    (reconnect_succeeds co ao r = false →
      SessionManager.get_session_by_id
          (Main.reconcile_one st r.session_id co ao) r.session_id
        = some { r with is_active := false } ∧
      (clients_get (Main.reconcile_one st r.session_id co ao).clients
          r.session_id).isSome = r.session_string.isSome) := by
  have hid2 : ¬ ((r.session_id == "") = true) := by
    simpa [beq_iff_eq] using hid
  unfold Main.reconcile_one
  rw [if_neg hid2]
  cases hstr : r.session_string with
  | none =>
      rw [reconnect_client_eq_no_token st r.session_id co ao r hrec hstr]
      constructor
      · intro hs
        simp [reconnect_succeeds, hstr] at hs
      · intro _
        have hdeact := SessionManager.get_session_by_id_deactivate_self st
          r.session_id r hrec
        rw [hstr] at hdeact
        refine ⟨hdeact, ?_⟩
        show (clients_get st.clients r.session_id).isSome = _
        rw [hcli]
        rfl
  | some tok =>
      cases hco : co tok with
      | false =>
          rw [reconnect_client_eq_connect_fail st r.session_id co ao r tok
            hrec hstr hco]
          constructor
          · intro hs
            simp [reconnect_succeeds, hstr, hco] at hs
          · intro _
            constructor
            · have hdeact := SessionManager.get_session_by_id_deactivate_self
                (set_clients st (clients_set st.clients r.session_id
                  (seeded tok (ao tok) false))) r.session_id r hrec
              rw [hstr] at hdeact
              exact hdeact
            · show (clients_get (clients_set st.clients r.session_id
                  (seeded tok (ao tok) false)) r.session_id).isSome = _
              rw [clients_get_set]
              simp
      | true =>
          rw [reconnect_client_eq_connect_ok st r.session_id co ao r tok
            hrec hstr hco]
          cases hao : ao tok with
          | false =>
              constructor
              · intro hs
                simp [reconnect_succeeds, hstr, hco, hao] at hs
              · intro _
                constructor
                · have hdeact :=
                    SessionManager.get_session_by_id_deactivate_self
                      (set_clients st (clients_set
                        (clients_set st.clients r.session_id
                          (seeded tok false false)) r.session_id
                        (seeded tok false true))) r.session_id r hrec
                  rw [hstr] at hdeact
                  exact hdeact
                · show (clients_get (clients_set
                      (clients_set st.clients r.session_id
                        (seeded tok false false)) r.session_id
                      (seeded tok false true)) r.session_id).isSome = _
                  rw [clients_get_set]
                  simp
          | true =>
              have hget2 : clients_get
                  (set_clients st (clients_set
                    (clients_set st.clients r.session_id
                      (seeded tok true false)) r.session_id
                    (seeded tok true true))).clients r.session_id
                  = some (seeded tok true true) := by
                show clients_get (clients_set
                  (clients_set st.clients r.session_id
                    (seeded tok true false)) r.session_id
                  (seeded tok true true)) r.session_id = _
                rw [clients_get_set]
                simp
              have hset : TelegramService.setup_message_handler
                  (set_clients st (clients_set
                    (clients_set st.clients r.session_id
                      (seeded tok true false)) r.session_id
                    (seeded tok true true))) r.session_id
                  = (.ok (), set_clients
                      (set_clients st (clients_set
                        (clients_set st.clients r.session_id
                          (seeded tok true false)) r.session_id
                        (seeded tok true true)))
                      (clients_set (clients_set
                        (clients_set st.clients r.session_id
                          (seeded tok true false)) r.session_id
                        (seeded tok true true)) r.session_id
                        ({ seeded tok true true with handler := true }))) := by
                unfold TelegramService.setup_message_handler
                rw [hget2]
                rfl
              constructor
              · intro _
                dsimp only
                rw [hset]
                refine ⟨hrec, { seeded tok true true with handler := true },
                  ?_, rfl, rfl, rfl⟩
                show clients_get (clients_set (clients_set
                    (clients_set st.clients r.session_id
                      (seeded tok true false)) r.session_id
                    (seeded tok true true)) r.session_id
                    ({ seeded tok true true with handler := true }))
                    r.session_id = _
                rw [clients_get_set]
                simp
              · intro hf
                simp [reconnect_succeeds, hstr, hco, hao] at hf

theorem reconcile_foldl_frame (todo : List SessionRecord)
    (co ao : String → Bool) (k : String) :
    ∀ st : ServiceState, (∀ r ∈ todo, r.session_id ≠ k) →
      SessionManager.get_session_by_id
          (todo.foldl (fun st r => Main.reconcile_one st r.session_id co ao) st)
          k
        = SessionManager.get_session_by_id st k ∧
      clients_get
          (todo.foldl (fun st r =>
            Main.reconcile_one st r.session_id co ao) st).clients k
        = clients_get st.clients k := by
  induction todo with
  | nil => intro st _; exact ⟨rfl, rfl⟩
  | cons r0 rest ih =>
      intro st hne
      have hk : k ≠ r0.session_id :=
        Ne.symm (hne r0 (List.mem_cons_self r0 rest))
      have hf := reconcile_one_frame st r0.session_id k co ao hk
      have hrest := ih (Main.reconcile_one st r0.session_id co ao)
        (fun r hr => hne r (List.mem_cons_of_mem r0 hr))
      exact ⟨hrest.1.trans hf.1, hrest.2.trans hf.2⟩

theorem find?_session_of_mem_nodup (l : List SessionRecord)
    (r : SessionRecord) (hmem : r ∈ l)
    (hnodup : (l.map (·.session_id)).Nodup) :
    l.find? (fun x => x.session_id == r.session_id) = some r := by
  induction l with
  | nil => cases hmem
  | cons a t ih =>
      rcases List.mem_cons.mp hmem with rfl | hmem2
      · simp [List.find?_cons]
      · have hnd : (∀ x ∈ t, ¬ x.session_id = a.session_id) ∧
            (t.map (·.session_id)).Nodup := by simpa using hnodup
        have hne : (a.session_id == r.session_id) = false := by
          simp only [beq_eq_false_iff_ne, ne_eq]
          intro he
          exact hnd.1 r hmem2 he.symm
        rw [List.find?_cons_of_neg _ (by simp [hne]), ih hmem2 hnd.2]

theorem reconcile_foldl_outcome (todo : List SessionRecord)
    (co ao : String → Bool) :
    ∀ st : ServiceState,
      (todo.map (·.session_id)).Nodup →
      (∀ r ∈ todo, r.session_id ≠ "") →
      (∀ r ∈ todo, SessionManager.get_session_by_id st r.session_id = some r ∧
        clients_get st.clients r.session_id = none) →
      ∀ r ∈ todo,
        (reconnect_succeeds co ao r = true →
          SessionManager.get_session_by_id
              (todo.foldl (fun st r =>
                Main.reconcile_one st r.session_id co ao) st) r.session_id
            = some r ∧
          ∃ c, clients_get
              (todo.foldl (fun st r =>
                Main.reconcile_one st r.session_id co ao) st).clients
              r.session_id = some c ∧
            c.handler = true ∧ c.connected = true ∧ c.authorized = true) ∧
        (reconnect_succeeds co ao r = false →
          SessionManager.get_session_by_id
              (todo.foldl (fun st r =>
                Main.reconcile_one st r.session_id co ao) st) r.session_id
            = some { r with is_active := false } ∧
          (clients_get
              (todo.foldl (fun st r =>
                Main.reconcile_one st r.session_id co ao) st).clients
              r.session_id).isSome = r.session_string.isSome) := by
  induction todo with
  | nil => intro st _ _ _ r hr; cases hr
  | cons r0 rest ih =>
      intro st hnodup hids hpre r hr
      have hnd : (∀ x ∈ rest, ¬ x.session_id = r0.session_id) ∧
          (rest.map (·.session_id)).Nodup := by simpa using hnodup
      rcases List.mem_cons.mp hr with rfl | hr2
      · -- the head record: settle it at the first step, then frame
        have hout := reconcile_one_outcome st r co ao
          (hpre r (List.mem_cons_self r rest)).1
          (hpre r (List.mem_cons_self r rest)).2
          (hids r (List.mem_cons_self r rest))
        have hframe := reconcile_foldl_frame rest co ao r.session_id
          (Main.reconcile_one st r.session_id co ao)
          (fun rr hrr => hnd.1 rr hrr)
        constructor
        · intro hs
          obtain ⟨hg, c, hc, h1, h2, h3⟩ := hout.1 hs
          exact ⟨hframe.1.trans hg, c, hframe.2.trans hc, h1, h2, h3⟩
        · intro hf
          obtain ⟨hg, hc⟩ := hout.2 hf
          refine ⟨hframe.1.trans hg, ?_⟩
          show (clients_get (rest.foldl (fun st r =>
              Main.reconcile_one st r.session_id co ao)
              (Main.reconcile_one st r.session_id co ao)).clients
              r.session_id).isSome = r.session_string.isSome
          rw [hframe.2]
          exact hc
      · -- a later record: preconditions survive the head step
        apply ih (Main.reconcile_one st r0.session_id co ao) hnd.2
          (fun rr hrr => hids rr (List.mem_cons_of_mem r0 hrr))
          ?_ r hr2
        intro rr hrr
        have hf := reconcile_one_frame st r0.session_id rr.session_id co ao
          (hnd.1 rr hrr)
        exact ⟨hf.1.trans (hpre rr (List.mem_cons_of_mem r0 hrr)).1,
               hf.2.trans (hpre rr (List.mem_cons_of_mem r0 hrr)).2⟩

/-- C5 counterexample: one active record whose stored token connects but
does not authorize (N = 1, M = 0).  The claim requires that exactly the
M = 0 successful sessions end with a live Registry entry, yet after
reconciliation the failed session still holds a Registry entry (its
stale client is never removed) while its record is deactivated. -/
theorem C5_counterexample :
    (SessionManager.get_session_by_id
      (Main.reconnect_all exReconcileStore (fun _ => true) (fun _ => false))
      "A").map (·.is_active) = some false ∧
    (clients_get
      (Main.reconnect_all exReconcileStore (fun _ => true)
        (fun _ => false)).clients "A").isSome = true := by
  decide

/-- C5 amended: over N active records with distinct non-empty session
ids and no pre-existing clients, reconciliation ends every session whose
token connects and authorizes with its record untouched and a live,
handler-attached, connected, authorized client; every other session ends
deactivated with its record retained — and it keeps a stale Registry
entry exactly when it had a stored token (only token-less sessions end
without a Registry entry). -/
theorem C5_amended_startup_reconciliation (records : List SessionRecord)
    (co ao : String → Bool)
    (hnodup : (records.map (·.session_id)).Nodup)
    (hact : ∀ r ∈ records, r.is_active = true)
    (hids : ∀ r ∈ records, r.session_id ≠ "") :
    ∀ r ∈ records,
      (reconnect_succeeds co ao r = true →
        SessionManager.get_session_by_id
            (Main.reconnect_all { store := records, clients := [] } co ao)
            r.session_id = some r ∧
        ∃ c, clients_get (Main.reconnect_all
            { store := records, clients := [] } co ao).clients
            r.session_id = some c ∧
          c.handler = true ∧ c.connected = true ∧ c.authorized = true) ∧
      (reconnect_succeeds co ao r = false →
        SessionManager.get_session_by_id
            (Main.reconnect_all { store := records, clients := [] } co ao)
            r.session_id = some { r with is_active := false } ∧
        (clients_get (Main.reconnect_all
            { store := records, clients := [] } co ao).clients
            r.session_id).isSome = r.session_string.isSome) := by
  have hall : SessionManager.get_all_active_sessions
      { store := records, clients := [] } = records := by
    unfold SessionManager.get_all_active_sessions
    apply List.filter_eq_self.mpr
    intro a ha
    exact hact a ha
  unfold Main.reconnect_all
  rw [hall]
  exact reconcile_foldl_outcome records co ao
    { store := records, clients := [] } hnodup hids
    (fun r hr => ⟨find?_session_of_mem_nodup records r hr hnodup, rfl⟩)

/-- C5 amended witness: two active records — `A` with a token that
reconnects and authorizes, `B` with no token; `A` ends live with a
handler attached and its record untouched, `B` ends deactivated with no
Registry entry. -/
theorem C5_witness :
    (SessionManager.get_session_by_id
        (Main.reconnect_all { store := exReconcileStore.store, clients := [] }
          (fun t => t == "t") (fun t => t == "t")) "A"
      = some { session_id := "A", agent_id := 1, is_active := true,
               session_file := "A", session_string := some "t" } ∧
     ∃ c, clients_get (Main.reconnect_all
         { store := exReconcileStore.store, clients := [] }
         (fun t => t == "t") (fun t => t == "t")).clients "A" = some c ∧
       c.handler = true ∧ c.connected = true ∧ c.authorized = true) ∧
    (SessionManager.get_session_by_id
        (Main.reconnect_all { store := exReconcileStore.store, clients := [] }
          (fun t => t == "t") (fun t => t == "t")) "B"
      = some { session_id := "B", agent_id := 2, is_active := false,
               session_file := "B" } ∧
     (clients_get (Main.reconnect_all
         { store := exReconcileStore.store, clients := [] }
         (fun t => t == "t") (fun t => t == "t")).clients "B").isSome
       = false) :=
  ⟨(C5_amended_startup_reconciliation exReconcileStore.store
      (fun t => t == "t") (fun t => t == "t") (by decide) (by decide)
      (by decide)
      { session_id := "A", agent_id := 1, is_active := true,
        session_file := "A", session_string := some "t" }
      (by decide)).1 (by decide),
   (C5_amended_startup_reconciliation exReconcileStore.store
      (fun t => t == "t") (fun t => t == "t") (by decide) (by decide)
      (by decide)
      { session_id := "B", agent_id := 2, is_active := true,
        session_file := "B" }
      (by decide)).2 (by decide)⟩

end TgCrawler
